import Mathlib

/-!
# Verification of the report360 back office

A shallow embedding of the parts of the `report360` repository that the
specification's claims are about, together with theorems settling those
claims.

Conventions used throughout:

* Database tables become Lean lists of row structures.  Each row structure
  keeps the columns the embedded operations read or write by name; all
  remaining columns of the row are bundled into a single `rest` field, which
  the operations never touch, so that frame properties ("no other column
  changes") are expressible.
* SQLAlchemy's `scalar_one_or_none` is embedded as `List.find?`.  Its
  `MultipleResultsFound` exception is unreachable when the id column is
  unique (it is the primary key); theorems whose conclusion depends on the
  looked-up row being unique carry an explicit key-uniqueness hypothesis.
* `async` plays no semantic role: each request handler runs its awaited
  database operations sequentially, so a handler is embedded as a pure
  state-passing function.
* A fallible database operation inside the one explicit transaction
  (`ClientService.safe_delete_client`) is modelled with an injected failure
  point `failAt : Option Nat` naming the code location of the query/update
  that raises; `none` is the failure-free run.
* Timestamps (`datetime.now(...)`, `date.today()`) enter as explicit `now` /
  `today` parameters of type `Nat` (an abstract time code).
-/

set_option autoImplicit false

namespace Report360

/-! ## Roles and permissions (`app/core/permissions.py`, `app/core/role_permissions.py`) -/

/-- `UserRole` from `app/core/permissions.py`: a string enum of the fourteen roles. -/
inductive UserRole where
  | admin | client_servicing | operations_manager | accounts | vendor | client
  | sales | purchase | operator_ | driver | promoter | anchor
  | vehicle_manager | godown_manager
deriving DecidableEq, Repr

/-- The string value of each `UserRole` member. -/
def UserRole.value : UserRole → String
  | .admin => "admin"
  | .client_servicing => "client_servicing"
  | .operations_manager => "operations_manager"
  | .accounts => "accounts"
  | .vendor => "vendor"
  | .client => "client"
  | .sales => "sales"
  | .purchase => "purchase"
  | .operator_ => "operator"
  | .driver => "driver"
  | .promoter => "promoter"
  | .anchor => "anchor"
  | .vehicle_manager => "vehicle_manager"
  | .godown_manager => "godown_manager"

/-- All members of `UserRole`, in declaration order. -/
def allRoles : List UserRole :=
  [.admin, .client_servicing, .operations_manager, .accounts, .vendor, .client,
   .sales, .purchase, .operator_, .driver, .promoter, .anchor,
   .vehicle_manager, .godown_manager]

/-- `UserRole(s)`: Python's lookup of an enum member by value; raises
`ValueError` (here: `none`) when no member has value `s`. -/
def UserRole.ofString (s : String) : Option UserRole :=
  allRoles.find? (fun r => r.value == s)

/-- `Permission` from `app/core/role_permissions.py`: a string enum of every
permission name. -/
inductive Permission where
  | user_create | user_read | user_update | user_delete | user_password_set
  | client_create | client_read | client_update | client_delete
  | project_create | project_read | project_update | project_delete
  | campaign_create | campaign_read | campaign_update | campaign_delete
  | vendor_create | vendor_read | vendor_update | vendor_delete
  | vehicle_create | vehicle_read | vehicle_update | vehicle_delete
  | driver_create | driver_read | driver_update | driver_delete
  | promoter_create | promoter_read | promoter_update | promoter_delete
  | promoter_activity_create | promoter_activity_read
  | promoter_activity_update | promoter_activity_delete
  | expense_create | expense_read | expense_update | expense_delete | expense_approve
  | report_create | report_read | report_update | report_delete
  | invoice_create | invoice_read | invoice_update | invoice_delete | invoice_approve
  | payment_create | payment_read | payment_update | payment_delete
  | dashboard_view | vendor_dashboard_view | client_servicing_dashboard_view
  | driver_dashboard_view | analytics_view
  | godown_create | godown_read | godown_update | godown_delete
  | inventory_create | inventory_read | inventory_update | inventory_delete
  | settings_view | settings_update
deriving DecidableEq, Repr

/-- The string value of each `Permission` member. -/
def Permission.value : Permission → String
  | .user_create => "user.create"
  | .user_read => "user.read"
  | .user_update => "user.update"
  | .user_delete => "user.delete"
  | .user_password_set => "user.password.set"
  | .client_create => "client.create"
  | .client_read => "client.read"
  | .client_update => "client.update"
  | .client_delete => "client.delete"
  | .project_create => "project.create"
  | .project_read => "project.read"
  | .project_update => "project.update"
  | .project_delete => "project.delete"
  | .campaign_create => "campaign.create"
  | .campaign_read => "campaign.read"
  | .campaign_update => "campaign.update"
  | .campaign_delete => "campaign.delete"
  | .vendor_create => "vendor.create"
  | .vendor_read => "vendor.read"
  | .vendor_update => "vendor.update"
  | .vendor_delete => "vendor.delete"
  | .vehicle_create => "vehicle.create"
  | .vehicle_read => "vehicle.read"
  | .vehicle_update => "vehicle.update"
  | .vehicle_delete => "vehicle.delete"
  | .driver_create => "driver.create"
  | .driver_read => "driver.read"
  | .driver_update => "driver.update"
  | .driver_delete => "driver.delete"
  | .promoter_create => "promoter.create"
  | .promoter_read => "promoter.read"
  | .promoter_update => "promoter.update"
  | .promoter_delete => "promoter.delete"
  | .promoter_activity_create => "promoter_activity.create"
  | .promoter_activity_read => "promoter_activity.read"
  | .promoter_activity_update => "promoter_activity.update"
  | .promoter_activity_delete => "promoter_activity.delete"
  | .expense_create => "expense.create"
  | .expense_read => "expense.read"
  | .expense_update => "expense.update"
  | .expense_delete => "expense.delete"
  | .expense_approve => "expense.approve"
  | .report_create => "report.create"
  | .report_read => "report.read"
  | .report_update => "report.update"
  | .report_delete => "report.delete"
  | .invoice_create => "invoice.create"
  | .invoice_read => "invoice.read"
  | .invoice_update => "invoice.update"
  | .invoice_delete => "invoice.delete"
  | .invoice_approve => "invoice.approve"
  | .payment_create => "payment.create"
  | .payment_read => "payment.read"
  | .payment_update => "payment.update"
  | .payment_delete => "payment.delete"
  | .dashboard_view => "dashboard.view"
  | .vendor_dashboard_view => "vendor_dashboard.view"
  | .client_servicing_dashboard_view => "client_servicing_dashboard.view"
  | .driver_dashboard_view => "driver_dashboard.view"
  | .analytics_view => "analytics.view"
  | .godown_create => "godown.create"
  | .godown_read => "godown.read"
  | .godown_update => "godown.update"
  | .godown_delete => "godown.delete"
  | .inventory_create => "inventory.create"
  | .inventory_read => "inventory.read"
  | .inventory_update => "inventory.update"
  | .inventory_delete => "inventory.delete"
  | .settings_view => "settings.view"
  | .settings_update => "settings.update"

/-- All members of `Permission`, in declaration order (`[perm for perm in Permission]`). -/
def allPermissions : List Permission :=
  [.user_create, .user_read, .user_update, .user_delete, .user_password_set,
   .client_create, .client_read, .client_update, .client_delete,
   .project_create, .project_read, .project_update, .project_delete,
   .campaign_create, .campaign_read, .campaign_update, .campaign_delete,
   .vendor_create, .vendor_read, .vendor_update, .vendor_delete,
   .vehicle_create, .vehicle_read, .vehicle_update, .vehicle_delete,
   .driver_create, .driver_read, .driver_update, .driver_delete,
   .promoter_create, .promoter_read, .promoter_update, .promoter_delete,
   .promoter_activity_create, .promoter_activity_read,
   .promoter_activity_update, .promoter_activity_delete,
   .expense_create, .expense_read, .expense_update, .expense_delete, .expense_approve,
   .report_create, .report_read, .report_update, .report_delete,
   .invoice_create, .invoice_read, .invoice_update, .invoice_delete, .invoice_approve,
   .payment_create, .payment_read, .payment_update, .payment_delete,
   .dashboard_view, .vendor_dashboard_view, .client_servicing_dashboard_view,
   .driver_dashboard_view, .analytics_view,
   .godown_create, .godown_read, .godown_update, .godown_delete,
   .inventory_create, .inventory_read, .inventory_update, .inventory_delete,
   .settings_view, .settings_update]

/-- `Permission(s)`: lookup of an enum member by value. -/
def Permission.ofString (s : String) : Option Permission :=
  allPermissions.find? (fun p => p.value == s)

/-- `RolePermissions.ROLE_PERMISSIONS` from `app/core/role_permissions.py`:
the hardcoded role → permissions dictionary, keyed by role name string. -/
def ROLE_PERMISSIONS : List (String × List Permission) :=
  [("admin", allPermissions),
   ("sales",
    [.client_create, .client_read, .client_update,
     .project_create, .project_read, .project_update,
     .campaign_read, .vendor_read, .report_read, .dashboard_view]),
   ("purchase",
    [.vendor_create, .vendor_read, .vendor_update,
     .project_read, .campaign_read, .expense_read, .dashboard_view]),
   ("client_servicing",
    [.client_read, .project_create, .project_read, .project_update,
     .campaign_create, .campaign_read, .campaign_update,
     .vendor_read, .vehicle_read, .driver_read, .promoter_read,
     .promoter_activity_read, .report_create, .report_read, .report_update,
     .expense_read, .dashboard_view, .client_servicing_dashboard_view]),
   ("operations_manager",
    [.project_read, .campaign_create, .campaign_read, .campaign_update,
     .vehicle_create, .vehicle_read, .vehicle_update,
     .driver_create, .driver_read, .driver_update,
     .promoter_create, .promoter_read, .promoter_update,
     .expense_read, .report_read, .driver_dashboard_view, .dashboard_view]),
   ("operator",
    [.campaign_read, .campaign_update, .vehicle_read, .vehicle_update,
     .driver_read, .driver_update, .vendor_read,
     .promoter_read, .promoter_update,
     .expense_create, .expense_read, .dashboard_view]),
   ("driver",
    [.campaign_read, .vehicle_read, .expense_create, .expense_read,
     .driver_dashboard_view, .dashboard_view]),
   ("promoter",
    [.campaign_read, .promoter_read, .promoter_update,
     .promoter_activity_create, .promoter_activity_read,
     .expense_create, .expense_read, .report_create, .report_read,
     .dashboard_view]),
   ("anchor",
    [.campaign_read, .expense_create, .expense_read, .dashboard_view]),
   ("vendor",
    [.campaign_read, .vehicle_create, .vehicle_read, .vehicle_update,
     .driver_create, .driver_read, .driver_update,
     .invoice_create, .invoice_read, .invoice_update, .payment_read,
     .vendor_dashboard_view, .expense_create, .expense_read, .dashboard_view]),
   ("vehicle_manager",
    [.vehicle_create, .vehicle_read, .vehicle_update,
     .driver_read, .campaign_read, .expense_read, .dashboard_view]),
   ("godown_manager",
    [.campaign_read, .project_read, .dashboard_view,
     .godown_create, .godown_read, .godown_update, .godown_delete,
     .inventory_create, .inventory_read, .inventory_update, .inventory_delete]),
   ("accounts",
    [.project_read, .campaign_read, .vendor_read,
     .expense_create, .expense_read, .expense_update, .expense_approve,
     .invoice_read, .invoice_approve,
     .payment_create, .payment_read, .payment_update,
     .report_read, .dashboard_view]),
   ("client",
    [.project_read, .campaign_read, .report_read, .dashboard_view])]

/-- `RolePermissions.get_permissions`: `ROLE_PERMISSIONS.get(role, [])`.
(The call sites pass a `UserRole` member, which as a `str` enum compares equal
to its value, so the lookup key is the role's value string.) -/
def getPermissions (role : String) : List Permission :=
  (ROLE_PERMISSIONS.lookup role).getD []

/-- `RolePermissions.has_permission`: `permission in cls.get_permissions(role)`. -/
def hasPermission (role : String) (permission : Permission) : Bool :=
  (getPermissions role).contains permission

/-- `check_user_permission` from `app/api/dependencies.py`.

`dbResult` stands for the outcome of the raw-SQL `role_permissions` join:
`some true` — the join returned a row (the role has the permission in the
database); `some false` — the query succeeded but returned no row;
`none` — the query raised, which the `except` swallows.  In the last two
cases the code falls through to the hardcoded matrix, converting the two
strings to enum members first and returning `False` on `ValueError`. -/
def checkUserPermission (dbResult : Option Bool) (userRole permissionName : String) : Bool :=
  if dbResult = some true then
    true
  else
    match UserRole.ofString userRole, Permission.ofString permissionName with
    | some r, some p => hasPermission r.value p
    | _, _ => false

/-- C4: `check_user_permission` returns `True` exactly when the database join
granted the permission or, failing that (no row as well as a raised query),
the hardcoded `ROLE_PERMISSIONS` matrix contains the permission for the role;
and for a role or permission name that is not a member of `UserRole` /
`Permission` the fallback yields `False` instead of propagating the
`ValueError`. -/
theorem check_user_permission_db_override
    (dbResult : Option Bool) (userRole permissionName : String) :
    (checkUserPermission dbResult userRole permissionName = true ↔
      (dbResult = some true ∨
        ∃ r p, UserRole.ofString userRole = some r ∧
          Permission.ofString permissionName = some p ∧
          hasPermission r.value p = true)) ∧
    ((UserRole.ofString userRole = none ∨ Permission.ofString permissionName = none) →
      dbResult ≠ some true →
      checkUserPermission dbResult userRole permissionName = false) := by
  constructor
  · unfold checkUserPermission
    by_cases hdb : dbResult = some true
    · simp [hdb]
    · simp only [hdb, if_false]
      rcases hr : UserRole.ofString userRole with _ | r <;>
        rcases hp : Permission.ofString permissionName with _ | p <;>
          simp_all
  · intro hnone hdb
    unfold checkUserPermission
    rcases hnone with h | h
    · simp [hdb, h]
    · simp only [hdb, if_false, h]
      rcases UserRole.ofString userRole with _ | r <;> simp

/-- Witness for C4 at concrete inputs: the database says "no row" and the
role name is not a `UserRole` member, so the check returns `false`. -/
theorem check_user_permission_db_override_witness :
    checkUserPermission (some false) "nobody" "user.create" = false :=
  (check_user_permission_db_override (some false) "nobody" "user.create").2
    (Or.inl (by decide)) (by decide)

/-! ## Expense approval (`app/api/v1/expenses.py`, `app/services/expense_service.py`) -/

/-- `ExpenseStatus` (`app/models/expense.py` / `app/schemas/expense.py`). -/
inductive ExpenseStatus where
  | pending | approved | rejected
deriving DecidableEq, Repr

/-- An HTTP error response (`HTTPException(status_code, detail)`). -/
structure HttpError where
  code : Nat
  detail : String
deriving DecidableEq, Repr

/-- One row of the `expenses` table; `rest` bundles the columns
(`campaign_id`, `amount`, …) that the approve/reject path never touches. -/
structure ExpenseRow where
  id : Nat
  status : ExpenseStatus
  approved_date : Option Nat
  is_active : Bool
  updated_at : Nat
  rest : Nat
deriving DecidableEq, Repr

/-- The row transformer of `ExpenseService.approve_expense`'s
`UPDATE expenses SET status='approved', approved_date=today, updated_at=now
WHERE id = expense_id` (via `BaseRepository.update`). -/
def approveExpenseUpd (expense_id today now : Nat) (e : ExpenseRow) : ExpenseRow :=
  if e.id == expense_id then { e with status := .approved, approved_date := some today, updated_at := now } else e

/-- The row transformer of `ExpenseService.reject_expense`'s
`UPDATE expenses SET status='rejected', updated_at=now WHERE id = expense_id`. -/
def rejectExpenseUpd (expense_id now : Nat) (e : ExpenseRow) : ExpenseRow :=
  if e.id == expense_id then { e with status := .rejected, updated_at := now } else e

/-- `PATCH /expenses/{id}/approve`: `require_permission(Permission.EXPENSE_APPROVE)`
followed by `ExpenseService.approve_expense`.

The dependency calls `check_user_permission(db, role, "expense.approve")` and
raises 403 when it returns `False`; otherwise the service runs
`expense_repo.update(db, expense_id, {status: APPROVED, approved_date: today})`,
which issues `UPDATE expenses SET status=…, approved_date=…, updated_at=now
WHERE id = expense_id` and then re-reads the row through the
`is_active`-filtered `get_by_id`, turning a missing result into a 404. -/
def approveExpenseEndpoint (dbPerm : Option Bool) (role : String) (today now : Nat)
    (expenses : List ExpenseRow) (expense_id : Nat) :
    Except HttpError ExpenseRow × List ExpenseRow :=
  if checkUserPermission dbPerm role "expense.approve" = false then
    (.error ⟨403, "Insufficient permissions. Required: expense.approve"⟩, expenses)
  else
    let updated := expenses.map (approveExpenseUpd expense_id today now)
    match updated.find? (fun e => e.id == expense_id && e.is_active) with
    | none => (.error ⟨404, "Expense not found"⟩, updated)
    | some e => (.ok e, updated)

/-- `PATCH /expenses/{id}/reject`: same permission, then
`ExpenseService.reject_expense` (`{status: REJECTED}` plus the repository's
automatic `updated_at`). -/
def rejectExpenseEndpoint (dbPerm : Option Bool) (role : String) (now : Nat)
    (expenses : List ExpenseRow) (expense_id : Nat) :
    Except HttpError ExpenseRow × List ExpenseRow :=
  if checkUserPermission dbPerm role "expense.approve" = false then
    (.error ⟨403, "Insufficient permissions. Required: expense.approve"⟩, expenses)
  else
    let updated := expenses.map (rejectExpenseUpd expense_id now)
    match updated.find? (fun e => e.id == expense_id && e.is_active) with
    | none => (.error ⟨404, "Expense not found"⟩, updated)
    | some e => (.ok e, updated)

/-- C5: a role granted `expense.approve` neither by the database join nor by
the hardcoded matrix receives 403 from the approve endpoint with the expense
table untouched; in the static matrix exactly `admin` and `accounts` hold the
permission, and a role holding it passes the permission check (the endpoint
does not answer 403). -/
theorem approve_expense_permission_gate
    (dbPerm : Option Bool) (role : String) (today now : Nat)
    (expenses : List ExpenseRow) (expense_id : Nat) :
    (dbPerm ≠ some true →
      (∀ r, UserRole.ofString role = some r →
        hasPermission r.value .expense_approve = false) →
      approveExpenseEndpoint dbPerm role today now expenses expense_id =
        (.error ⟨403, "Insufficient permissions. Required: expense.approve"⟩, expenses)) ∧
    (∀ r : UserRole,
      hasPermission r.value .expense_approve = true ↔ (r = .admin ∨ r = .accounts)) ∧
    (checkUserPermission dbPerm role "expense.approve" = true →
      ∀ st, (approveExpenseEndpoint dbPerm role today now expenses expense_id).1 ≠
        .error ⟨403, st⟩) := by
  refine ⟨?_, ?_, ?_⟩
  · intro hdb hstatic
    have hchk : checkUserPermission dbPerm role "expense.approve" = false := by
      unfold checkUserPermission
      simp only [hdb, if_false]
      rcases hr : UserRole.ofString role with _ | r
      · rcases Permission.ofString "expense.approve" with _ | p <;> simp
      · have : Permission.ofString "expense.approve" = some .expense_approve := by decide
        rw [this]
        exact hstatic r hr
    unfold approveExpenseEndpoint
    simp [hchk]
  · intro r
    cases r <;> decide
  · intro hchk st
    unfold approveExpenseEndpoint
    rw [if_neg (by simp [hchk])]
    dsimp only
    split <;> simp

/-- Witness for C5: a `driver` (no `expense.approve` anywhere) gets 403 and
the single pending expense row is unchanged. -/
theorem approve_expense_permission_gate_witness :
    approveExpenseEndpoint (some false) "driver" 5 6
        [⟨1, .pending, none, true, 0, 0⟩] 1 =
      (.error ⟨403, "Insufficient permissions. Required: expense.approve"⟩,
        [⟨1, .pending, none, true, 0, 0⟩]) :=
  (approve_expense_permission_gate (some false) "driver" 5 6
      [⟨1, .pending, none, true, 0, 0⟩] 1).1
    (by decide) (by decide)

/-! ## Invoice approval (`app/api/v1/invoices.py`) -/

/-- `InvoiceStatus` (`app/models/invoice.py`). -/
inductive InvoiceStatus where
  | pending | submitted | approved | rejected | paid
deriving DecidableEq, Repr

/-- `PaymentStatus` (`app/models/payment.py`). -/
inductive PaymentStatus where
  | pending | processing | completed | failed
deriving DecidableEq, Repr

/-- One row of the `invoices` table as the approve endpoint sees it; `rest`
bundles the untouched columns (`invoice_number`, `invoice_date`, …). -/
structure InvoiceRow where
  id : Nat
  amount : Int
  vendor_id : Nat
  campaign_id : Option Nat
  status : InvoiceStatus
  is_active : Bool
  updated_at : Nat
  rest : Nat
deriving DecidableEq, Repr

/-- One row of the `payments` table; `rest` bundles the untouched columns
(`payment_method`, `transaction_reference`, …). -/
structure PaymentRow where
  id : Nat
  amount : Int
  payment_date : Option Nat
  status : PaymentStatus
  invoice_id : Nat
  vendor_id : Nat
  is_active : Bool
  rest : Nat
deriving DecidableEq, Repr

/-- The slice of database state the invoice-approve endpoint touches.
`nextPaymentId` models the autoincrementing `payments.id`. -/
structure InvoiceState where
  invoices : List InvoiceRow
  payments : List PaymentRow
  nextPaymentId : Nat
deriving DecidableEq, Repr

/-- The row transformer of `InvoiceRepository.update(invoice_id, {"status": "approved"})`:
the repository fetches the row through the `is_active`-filtered `get_by_id`
and sets the attribute, the ORM's `onupdate` refreshing `updated_at`. -/
def approveInvoiceUpd (invoice_id now : Nat) (i : InvoiceRow) : InvoiceRow :=
  if i.id == invoice_id && i.is_active then { i with status := .approved, updated_at := now } else i

/-- The row transformer of `payment_repo.update(payment.id, {...})` inside
`approve_invoice`: the existing payment is reset to a pending payment over
the invoice's amount and vendor. -/
def paymentPendingUpd (payment_id : Nat) (invoice : InvoiceRow) (p : PaymentRow) : PaymentRow :=
  if p.id == payment_id && p.is_active then { p with amount := invoice.amount, status := .pending, payment_date := none, vendor_id := invoice.vendor_id } else p

/-- The tail of `approve_invoice`: the invoice is re-read through the
`is_active`-filtered `get_by_id` and returned (404 if it vanished). -/
def approveInvoiceReturn (st2 : InvoiceState) (invoice_id : Nat) :
    Except HttpError InvoiceRow × InvoiceState :=
  match st2.invoices.find? (fun i => i.id == invoice_id && i.is_active) with
  | none => (.error ⟨404, "Invoice not found after update"⟩, st2)
  | some result => (.ok result, st2)

/-- `POST /invoices/{invoice_id}/approve` (`approve_invoice`):

1. inline role check (`admin`/`accounts`, else 403);
2. `InvoiceRepository.get_by_id` (`is_active`-filtered, 404 when missing);
3. 400 when `invoice.status == "approved"`;
4. `repo.update(invoice_id, {"status": "approved"})` — fetch-by-id then
   setattr, with the ORM's `onupdate` refreshing `updated_at`; the
   repository commits this change immediately;
5. `payment_repo.get_by_invoice` (`is_active`-filtered); an existing active
   payment is updated to `{amount, status: pending, payment_date: None,
   vendor_id}`; otherwise `payment_repo.create` INSERTs a fresh pending
   `Payment` row.  `payments.invoice_id` carries a UNIQUE constraint over
   *all* rows, so when a soft-deleted payment still references the invoice
   (reachable through `DELETE /payments/{id}`) the INSERT's commit raises
   `IntegrityError`; the endpoint has no handler for it, so the request
   fails with HTTP 500 while the already committed status update of step 4
   persists and the payments table is unchanged;
6. the invoice is re-read and returned (404 if it vanished). -/
def approveInvoice (role : String) (now : Nat) (st : InvoiceState) (invoice_id : Nat) :
    Except HttpError InvoiceRow × InvoiceState :=
  if !(role == "admin" || role == "accounts") then
    (.error ⟨403, "Only admin or accounts can approve invoices"⟩, st)
  else
    match st.invoices.find? (fun i => i.id == invoice_id && i.is_active) with
    | none => (.error ⟨404, "Invoice not found"⟩, st)
    | some invoice =>
      if invoice.status = .approved then
        (.error ⟨400, "Invoice already approved"⟩, st)
      else
        let st1 : InvoiceState :=
          { st with invoices := st.invoices.map (approveInvoiceUpd invoice_id now) }
        match st1.payments.find? (fun p => p.invoice_id == invoice_id && p.is_active) with
        | some payment =>
          approveInvoiceReturn
            { st1 with payments := st1.payments.map (paymentPendingUpd payment.id invoice) }
            invoice_id
        | none =>
          if st1.payments.any (fun p => p.invoice_id == invoice_id) then
            (.error ⟨500, "IntegrityError: duplicate key for payments.invoice_id"⟩, st1)
          else
            approveInvoiceReturn
              { st1 with
                payments := st1.payments ++
                  [⟨st1.nextPaymentId, invoice.amount, none, .pending,
                    invoice.id, invoice.vendor_id, true, 0⟩],
                nextPaymentId := st1.nextPaymentId + 1 }
              invoice_id

/-! ### Shared list helpers -/

/-- In a list whose keys are pairwise distinct, two members with the same key
are the same row. -/
theorem pairwise_key_eq {α : Type} {key : α → Nat} {l : List α}
    (h : l.Pairwise (fun a b => key a ≠ key b))
    {a b : α} (ha : a ∈ l) (hb : b ∈ l) (hk : key a = key b) : a = b := by
  induction l with
  | nil => cases ha
  | cons hd tl ih =>
    rcases List.pairwise_cons.mp h with ⟨hhd, htl⟩
    rcases List.mem_cons.mp ha with ha1 | ha1 <;> rcases List.mem_cons.mp hb with hb1 | hb1
    · rw [ha1, hb1]
    · exact absurd hk (ha1 ▸ hhd b hb1)
    · exact absurd hk.symm (hb1 ▸ hhd a ha1)
    · exact ih htl ha1 hb1

/-- A list of length at most one has at most one member. -/
theorem mem_of_length_le_one {α : Type} {l : List α} (h : l.length ≤ 1)
    {a b : α} (ha : a ∈ l) (hb : b ∈ l) : a = b := by
  cases l with
  | nil => cases ha
  | cons x t =>
    cases t with
    | nil =>
      rw [List.mem_singleton.mp ha, List.mem_singleton.mp hb]
    | cons y u => simp at h

/-- C9: approving an invoice that is already `approved` answers 400 with
detail "Invoice already approved" and leaves the whole state — invoice rows
and payment rows — untouched; the payment create/update step is never
reached. -/
theorem approve_invoice_already_approved
    (role : String) (now : Nat) (st : InvoiceState) (invoice_id : Nat) (inv : InvoiceRow)
    (hrole : role = "admin" ∨ role = "accounts")
    (hfind : st.invoices.find? (fun i => i.id == invoice_id && i.is_active) = some inv)
    (hst : inv.status = .approved) :
    approveInvoice role now st invoice_id =
      (.error ⟨400, "Invoice already approved"⟩, st) := by
  unfold approveInvoice
  rcases hrole with h | h <;> subst h <;> simp [hfind, hst]

/-- Witness for C9: one approved invoice, approved again by an admin. -/
theorem approve_invoice_already_approved_witness :
    approveInvoice "admin" 3 ⟨[⟨1, 50, 2, none, .approved, true, 0, 0⟩], [], 7⟩ 1 =
      (.error ⟨400, "Invoice already approved"⟩,
        ⟨[⟨1, 50, 2, none, .approved, true, 0, 0⟩], [], 7⟩) :=
  approve_invoice_already_approved "admin" 3
    ⟨[⟨1, 50, 2, none, .approved, true, 0, 0⟩], [], 7⟩ 1
    ⟨1, 50, 2, none, .approved, true, 0, 0⟩ (Or.inl rfl) (by decide) rfl

/-- Mapping a function that does not change the tested field keeps the
filter count. -/
theorem length_filter_map_eq {α β : Type} (f : α → β) (p : β → Bool) (q : α → Bool)
    (l : List α) (h : ∀ a, p (f a) = q a) :
    ((l.map f).filter p).length = (l.filter q).length := by
  induction l with
  | nil => rfl
  | cons a t ih =>
    rw [List.map_cons, List.filter_cons, List.filter_cons, h a]
    cases q a <;> simp [ih]

/-- The closing re-read of `approve_invoice` does not change the state. -/
theorem approveInvoiceReturn_snd (st2 : InvoiceState) (invoice_id : Nat) :
    (approveInvoiceReturn st2 invoice_id).2 = st2 := by
  unfold approveInvoiceReturn
  split <;> rfl

/-- C6 counterexample: the claim as stated fails when a soft-deleted payment
still references the invoice (a state reachable via `DELETE /payments/{id}`).
Concretely: invoice `1` exists, is active and has status `paid` (not
`approved`), and an admin calls approve — all the claim's premises — yet the
payment INSERT violates the `payments.invoice_id` UNIQUE constraint, the
request fails with 500, and afterwards no payment row for the invoice has
status `pending`. -/
theorem approve_invoice_payment_counterexample :
    ((⟨[⟨1, 100, 2, none, .paid, true, 0, 0⟩],
       [⟨6, 100, some 3, .completed, 1, 2, false, 0⟩], 9⟩ : InvoiceState).invoices.find?
        (fun i => i.id == 1 && i.is_active) =
      some ⟨1, 100, 2, none, .paid, true, 0, 0⟩) ∧
    ¬ (InvoiceStatus.paid = InvoiceStatus.approved) ∧
    ((approveInvoice "admin" 4
        ⟨[⟨1, 100, 2, none, .paid, true, 0, 0⟩],
         [⟨6, 100, some 3, .completed, 1, 2, false, 0⟩], 9⟩ 1).1 =
      .error ⟨500, "IntegrityError: duplicate key for payments.invoice_id"⟩) ∧
    (∀ p ∈ (approveInvoice "admin" 4
        ⟨[⟨1, 100, 2, none, .paid, true, 0, 0⟩],
         [⟨6, 100, some 3, .completed, 1, 2, false, 0⟩], 9⟩ 1).2.payments,
      ¬ p.status = PaymentStatus.pending) :=
  ⟨by decide, by decide, rfl, by decide⟩

/-- C6 as amended: approving an existing, active, not-yet-approved invoice
as `admin` or `accounts` — provided no soft-deleted payment row still
references the invoice (`hpayact`; otherwise the INSERT trips the
`payments.invoice_id` UNIQUE constraint and the request fails with 500) —
succeeds; the invoice's status becomes `approved` and afterwards exactly one
payment row references the invoice — status `pending`, `payment_date` null,
the invoice's `vendor_id` and `amount` — with a pre-existing active payment
updated in place (the payments table does not grow).  `hinvpk` is the
primary key of `invoices`; `hpay1` is the UNIQUE constraint on
`payments.invoice_id`. -/
theorem approve_invoice_single_pending_payment
    (role : String) (now : Nat) (st : InvoiceState) (invoice_id : Nat) (inv : InvoiceRow)
    (hrole : role = "admin" ∨ role = "accounts")
    (hfind : st.invoices.find? (fun i => i.id == invoice_id && i.is_active) = some inv)
    (hst : ¬ inv.status = InvoiceStatus.approved)
    (hinvpk : st.invoices.Pairwise (fun a b => a.id ≠ b.id))
    (hpay1 : (st.payments.filter (fun p => p.invoice_id == invoice_id)).length ≤ 1)
    (hpayact : ∀ p ∈ st.payments, p.invoice_id = invoice_id → p.is_active = true) :
    (∃ r, (approveInvoice role now st invoice_id).1 = .ok r) ∧
    (∀ i ∈ (approveInvoice role now st invoice_id).2.invoices,
      i.id = invoice_id → i.status = InvoiceStatus.approved) ∧
    ((approveInvoice role now st invoice_id).2.payments.filter
        (fun p => p.invoice_id == invoice_id)).length = 1 ∧
    (∀ p ∈ (approveInvoice role now st invoice_id).2.payments, p.invoice_id = invoice_id →
      p.status = PaymentStatus.pending ∧ p.payment_date = none ∧
        p.vendor_id = inv.vendor_id ∧ p.amount = inv.amount ∧ p.is_active = true) ∧
    ((∃ p ∈ st.payments, p.invoice_id = invoice_id) →
      (approveInvoice role now st invoice_id).2.payments.length = st.payments.length) := by
  have hinv_mem : inv ∈ st.invoices := List.mem_of_find?_eq_some hfind
  have hpred := List.find?_some hfind
  simp only [Bool.and_eq_true, beq_iff_eq] at hpred
  have hid : inv.id = invoice_id := hpred.1
  have hact : inv.is_active = true := hpred.2
  have hpredT : ∀ j : InvoiceRow, j.id = invoice_id → j.is_active = true →
      (j.id == invoice_id && j.is_active) = true := by
    intro j h1 h2
    simp [h1, h2]
  have hupd_inv : approveInvoiceUpd invoice_id now inv =
      { inv with status := .approved, updated_at := now } := by
    unfold approveInvoiceUpd
    rw [if_pos (hpredT inv hid hact)]
  -- the re-read of the invoice after the UPDATE finds the approved row
  have hfind2 : ∃ r, (st.invoices.map (approveInvoiceUpd invoice_id now)).find?
      (fun i => i.id == invoice_id && i.is_active) = some r := by
    rcases h2 : (st.invoices.map (approveInvoiceUpd invoice_id now)).find?
        (fun i => i.id == invoice_id && i.is_active) with _ | r
    · exfalso
      have hall := List.find?_eq_none.mp h2
      have hm : approveInvoiceUpd invoice_id now inv ∈
          st.invoices.map (approveInvoiceUpd invoice_id now) :=
        List.mem_map_of_mem _ hinv_mem
      have hc := hall _ hm
      rw [hupd_inv] at hc
      exact hc (hpredT _ hid hact)
    · exact ⟨r, h2⟩
  rcases hfind2 with ⟨r, hr⟩
  -- every invoice row carrying the id is approved afterwards
  have hinvpart : ∀ i ∈ st.invoices.map (approveInvoiceUpd invoice_id now),
      i.id = invoice_id → i.status = InvoiceStatus.approved := by
    intro i him hiid
    rcases List.mem_map.mp him with ⟨pre, hpre, hE⟩
    by_cases hg : (pre.id == invoice_id && pre.is_active) = true
    · rw [← hE]
      unfold approveInvoiceUpd
      rw [if_pos hg]
    · exfalso
      unfold approveInvoiceUpd at hE
      rw [if_neg hg] at hE
      have hkey : pre.id = inv.id := by
        rw [hid, hE, hiid]
      have : pre = inv := pairwise_key_eq hinvpk hpre hinv_mem hkey
      rw [this] at hg
      exact hg (hpredT inv hid hact)
  rcases hpayfind : st.payments.find? (fun p => p.invoice_id == invoice_id && p.is_active)
      with _ | payment
  · -- no payment for the invoice exists at all (an inactive leftover is
    -- excluded by `hpayact`): a fresh pending one is created
    have hnone : ∀ p ∈ st.payments, p.invoice_id ≠ invoice_id := by
      intro p hp hcontra
      have := List.find?_eq_none.mp hpayfind p hp
      exact this (by simp [hcontra, hpayact p hp hcontra])
    have hany : st.payments.any (fun p => p.invoice_id == invoice_id) = false := by
      rw [List.any_eq_false]
      intro p hp
      simpa using hnone p hp
    have hA : approveInvoice role now st invoice_id =
        (.ok r, { invoices := st.invoices.map (approveInvoiceUpd invoice_id now),
                  payments := st.payments ++
                    [⟨st.nextPaymentId, inv.amount, none, .pending, inv.id, inv.vendor_id, true, 0⟩],
                  nextPaymentId := st.nextPaymentId + 1 }) := by
      rcases hrole with h | h <;> subst h <;>
        simp [approveInvoice, approveInvoiceReturn, hfind, if_neg hst, hpayfind, hany, hr]
    have hfilnil : st.payments.filter (fun p => p.invoice_id == invoice_id) = [] := by
      rw [List.filter_eq_nil_iff]
      intro p hp
      simpa using hnone p hp
    refine ⟨⟨r, by rw [hA]⟩, ?_, ?_, ?_, ?_⟩
    · simp only [hA]
      exact hinvpart
    · simp only [hA]
      rw [List.filter_append, hfilnil]
      simp [hid]
    · simp only [hA]
      intro p hp hpid
      rcases List.mem_append.mp hp with hp1 | hp1
      · exact absurd hpid (hnone p hp1)
      · rw [List.mem_singleton.mp hp1]
        exact ⟨rfl, rfl, rfl, rfl, rfl⟩
    · intro hex
      rcases hex with ⟨p, hp, hpid⟩
      exact absurd hpid (hnone p hp)
  · -- a payment exists: it is reset in place
    have hpay_mem : payment ∈ st.payments := List.mem_of_find?_eq_some hpayfind
    have hpay_pred := List.find?_some hpayfind
    simp only [Bool.and_eq_true, beq_iff_eq] at hpay_pred
    have hpay_id : payment.invoice_id = invoice_id := hpay_pred.1
    have hpay_act : payment.is_active = true := hpay_pred.2
    have hpay_filter_mem : payment ∈ st.payments.filter (fun p => p.invoice_id == invoice_id) :=
      List.mem_filter.mpr ⟨hpay_mem, by simp [hpay_id]⟩
    have hA : approveInvoice role now st invoice_id =
        (.ok r, { invoices := st.invoices.map (approveInvoiceUpd invoice_id now),
                  payments := st.payments.map (paymentPendingUpd payment.id inv),
                  nextPaymentId := st.nextPaymentId }) := by
      rcases hrole with h | h <;> subst h <;>
        simp [approveInvoice, approveInvoiceReturn, hfind, if_neg hst, hpayfind, hr]
    have hkeep : ∀ p : PaymentRow, (paymentPendingUpd payment.id inv p).invoice_id = p.invoice_id := by
      intro p
      unfold paymentPendingUpd
      by_cases hg : (p.id == payment.id && p.is_active) = true
      · rw [if_pos hg]
      · rw [if_neg hg]
    refine ⟨⟨r, by rw [hA]⟩, ?_, ?_, ?_, ?_⟩
    · simp only [hA]
      exact hinvpart
    · simp only [hA]
      rw [length_filter_map_eq (paymentPendingUpd payment.id inv)
        (fun p => p.invoice_id == invoice_id) (fun p => p.invoice_id == invoice_id)
        st.payments (fun a => by simp [hkeep a])]
      have h1 : 1 ≤ (st.payments.filter (fun p => p.invoice_id == invoice_id)).length := by
        have := List.ne_nil_of_mem hpay_filter_mem
        cases h : st.payments.filter (fun p => p.invoice_id == invoice_id) with
        | nil => exact absurd h this
        | cons x xs => simp
      omega
    · simp only [hA]
      intro p hp hpid
      rcases List.mem_map.mp hp with ⟨q, hq, hE⟩
      have hq_id : q.invoice_id = invoice_id := by
        rw [← hpid, ← hE, hkeep q]
      have hq_filter : q ∈ st.payments.filter (fun x => x.invoice_id == invoice_id) :=
        List.mem_filter.mpr ⟨hq, by simp [hq_id]⟩
      have hq_eq : q = payment := mem_of_length_le_one hpay1 hq_filter hpay_filter_mem
      rw [← hE, hq_eq]
      unfold paymentPendingUpd
      rw [if_pos (by simp [hpay_act])]
      exact ⟨rfl, rfl, rfl, rfl, hpay_act⟩
    · intro _
      simp only [hA]
      simp

/-- Witness for C6: an `accounts` user approves a pending invoice that has no
payment yet; afterwards exactly one payment row references it. -/
theorem approve_invoice_single_pending_payment_witness :
    ((approveInvoice "accounts" 9 ⟨[⟨1, 100, 2, none, .pending, true, 0, 0⟩], [], 5⟩ 1).2.payments.filter
        (fun p => p.invoice_id == 1)).length = 1 :=
  (approve_invoice_single_pending_payment "accounts" 9
      ⟨[⟨1, 100, 2, none, .pending, true, 0, 0⟩], [], 5⟩ 1
      ⟨1, 100, 2, none, .pending, true, 0, 0⟩
      (Or.inr rfl) (by decide) (by decide) (by decide) (by decide)
      (by intro p hp; cases hp)).2.2.1

/-! ### Status transitions (C7) -/

/-- The expense transitions the specification enumerates:
`pending→approved` and `pending→rejected`. -/
def expenseTransitionAllowed : ExpenseStatus → ExpenseStatus → Bool
  | .pending, .approved => true
  | .pending, .rejected => true
  | _, _ => false

/-- The invoice transitions the specification enumerates:
`pending→submitted→approved→paid`. -/
def invoiceTransitionAllowed : InvoiceStatus → InvoiceStatus → Bool
  | .pending, .submitted => true
  | .submitted, .approved => true
  | .approved, .paid => true
  | _, _ => false

/-- C7 counterexample: the endpoints perform status transitions outside the
enumerated ones.  Concretely: rejecting the pending expense `1` and then
approving it drives `rejected→approved`, and approving a `paid` invoice
drives `paid→approved`; neither transition is in the enumerated sets. -/
theorem status_transition_counterexample :
    (rejectExpenseEndpoint (some false) "admin" 1 [⟨1, .pending, none, true, 0, 0⟩] 1).2 =
        [⟨1, .rejected, none, true, 1, 0⟩] ∧
    (approveExpenseEndpoint (some false) "admin" 2 3 [⟨1, .rejected, none, true, 1, 0⟩] 1).2 =
        [⟨1, .approved, some 2, true, 3, 0⟩] ∧
    expenseTransitionAllowed .rejected .approved = false ∧
    (approveInvoice "admin" 4 ⟨[⟨1, 100, 2, none, .paid, true, 0, 0⟩], [], 5⟩ 1).2.invoices =
        [⟨1, 100, 2, none, .approved, true, 4, 0⟩] ∧
    invoiceTransitionAllowed .paid .approved = false := by
  decide

/-- C7 amended: the endpoints overwrite statuses without inspecting the
previous one.  Every expense row after the approve endpoint keeps its status
or has become `approved`; after the reject endpoint, kept or `rejected`; and
every invoice row after the approve endpoint keeps its status or has moved
from a non-`approved` status to `approved`.  The source status is otherwise
unconstrained, so transitions outside the enumerated chains (such as
`rejected→approved` or `paid→approved`) are reachable. -/
theorem endpoint_transition_targets :
    (∀ (dbPerm : Option Bool) (role : String) (today now : Nat)
        (expenses : List ExpenseRow) (eid : Nat),
      ∀ e ∈ (approveExpenseEndpoint dbPerm role today now expenses eid).2,
        ∃ pre ∈ expenses, e.id = pre.id ∧
          (e.status = pre.status ∨ e.status = .approved)) ∧
    (∀ (dbPerm : Option Bool) (role : String) (now : Nat)
        (expenses : List ExpenseRow) (eid : Nat),
      ∀ e ∈ (rejectExpenseEndpoint dbPerm role now expenses eid).2,
        ∃ pre ∈ expenses, e.id = pre.id ∧
          (e.status = pre.status ∨ e.status = .rejected)) ∧
    (∀ (role : String) (now : Nat) (st : InvoiceState) (iid : Nat),
      ∀ i ∈ (approveInvoice role now st iid).2.invoices,
        ∃ pre ∈ st.invoices, i.id = pre.id ∧
          (i.status = pre.status ∨ (pre.status ≠ .approved ∧ i.status = .approved))) := by
  refine ⟨?_, ?_, ?_⟩
  · intro dbPerm role today now expenses eid e he
    unfold approveExpenseEndpoint at he
    by_cases hchk : checkUserPermission dbPerm role "expense.approve" = false
    · rw [if_pos hchk] at he
      exact ⟨e, he, rfl, Or.inl rfl⟩
    · rw [if_neg hchk] at he
      have hmem : e ∈ expenses.map (approveExpenseUpd eid today now) := by
        dsimp only at he
        split at he <;> exact he
      rcases List.mem_map.mp hmem with ⟨pre, hpre, hE⟩
      refine ⟨pre, hpre, ?_⟩
      unfold approveExpenseUpd at hE
      by_cases hid : (pre.id == eid) = true
      · rw [if_pos hid] at hE
        rw [← hE]
        exact ⟨rfl, Or.inr rfl⟩
      · rw [if_neg hid] at hE
        rw [← hE]
        exact ⟨rfl, Or.inl rfl⟩
  · intro dbPerm role now expenses eid e he
    unfold rejectExpenseEndpoint at he
    by_cases hchk : checkUserPermission dbPerm role "expense.approve" = false
    · rw [if_pos hchk] at he
      exact ⟨e, he, rfl, Or.inl rfl⟩
    · rw [if_neg hchk] at he
      have hmem : e ∈ expenses.map (rejectExpenseUpd eid now) := by
        dsimp only at he
        split at he <;> exact he
      rcases List.mem_map.mp hmem with ⟨pre, hpre, hE⟩
      refine ⟨pre, hpre, ?_⟩
      unfold rejectExpenseUpd at hE
      by_cases hid : (pre.id == eid) = true
      · rw [if_pos hid] at hE
        rw [← hE]
        exact ⟨rfl, Or.inr rfl⟩
      · rw [if_neg hid] at hE
        rw [← hE]
        exact ⟨rfl, Or.inl rfl⟩
  · intro role now st iid i hi
    unfold approveInvoice at hi
    split at hi
    · exact ⟨i, hi, rfl, Or.inl rfl⟩
    · split at hi
      · exact ⟨i, hi, rfl, Or.inl rfl⟩
      · split at hi
        · exact ⟨i, hi, rfl, Or.inl rfl⟩
        · dsimp only at hi
          have hmem : i ∈ st.invoices.map (approveInvoiceUpd iid now) := by
            split at hi
            · rw [approveInvoiceReturn_snd] at hi
              exact hi
            · split at hi
              · exact hi
              · rw [approveInvoiceReturn_snd] at hi
                exact hi
          rcases List.mem_map.mp hmem with ⟨pre, hpre, hE⟩
          refine ⟨pre, hpre, ?_⟩
          unfold approveInvoiceUpd at hE
          by_cases hid : (pre.id == iid && pre.is_active) = true
          · rw [if_pos hid] at hE
            rw [← hE]
            by_cases hps : pre.status = InvoiceStatus.approved
            · exact ⟨rfl, Or.inl hps.symm⟩
            · exact ⟨rfl, Or.inr ⟨hps, rfl⟩⟩
          · rw [if_neg hid] at hE
            rw [← hE]
            exact ⟨rfl, Or.inl rfl⟩

/-- Witness for the amended C7 theorem at a concrete run: the single row of
the post-state of an authorised approve call relates to some pre-state row
as the theorem states. -/
theorem endpoint_transition_targets_witness :
    ∃ pre ∈ [(⟨1, .rejected, none, true, 1, 0⟩ : ExpenseRow)],
      (1 : Nat) = pre.id ∧
        (ExpenseStatus.approved = pre.status ∨ ExpenseStatus.approved = .approved) := by
  have h := endpoint_transition_targets.1 (some false) "admin" 2 3
    [⟨1, .rejected, none, true, 1, 0⟩] 1 ⟨1, .approved, some 2, true, 3, 0⟩ (by decide)
  exact h

/-! ## Cascading client soft-delete (`app/services/client_service.py`)

`ClientService.safe_delete_client` runs inside a single transaction: the
failure-free run commits all updates at once, and any raising run rolls the
transaction back, so the only externally visible states are the original
database and the fully cascaded one.  The injected failure point
`failAt : Option Nat` names the code location (operation index 0–11 below)
of the query/update/commit that raises; `none` is the failure-free run. -/

/-- A `clients` row; `rest` bundles the columns the delete never touches. -/
structure ClientRow where
  id : Nat
  name : String
  is_active : Bool
  updated_at : Nat
  rest : Nat
deriving DecidableEq, Repr

/-- A `projects` row (`client_id` is non-nullable). -/
structure ProjectRow where
  id : Nat
  client_id : Nat
  is_active : Bool
  updated_at : Nat
  rest : Nat
deriving DecidableEq, Repr

/-- A `campaigns` row (`project_id` is non-nullable). -/
structure CampaignRow where
  id : Nat
  project_id : Nat
  is_active : Bool
  updated_at : Nat
  rest : Nat
deriving DecidableEq, Repr

/-- A row of `reports` / `promoter_activities`: non-nullable `campaign_id`. -/
structure CampaignChildRow where
  id : Nat
  campaign_id : Nat
  is_active : Bool
  updated_at : Nat
  rest : Nat
deriving DecidableEq, Repr

/-- A row of `expenses` / `invoices` / `driver_assignments`: nullable
`campaign_id` (`SET NULL` or plain nullable foreign keys). -/
structure CampaignChildRowN where
  id : Nat
  campaign_id : Option Nat
  is_active : Bool
  updated_at : Nat
  rest : Nat
deriving DecidableEq, Repr

/-- The slice of the database the cascade touches. -/
structure CascadeDB where
  clients : List ClientRow
  projects : List ProjectRow
  campaigns : List CampaignRow
  expenses : List CampaignChildRowN
  reports : List CampaignChildRow
  invoices : List CampaignChildRowN
  promoter_activities : List CampaignChildRow
  driver_assignments : List CampaignChildRowN
deriving DecidableEq, Repr

/-- The `counts` dictionary of `safe_delete_client`. -/
structure DeleteCounts where
  client : Nat
  projects : Nat
  campaigns : Nat
  expenses : Nat
  reports : Nat
  invoices : Nat
  promoter_activities : Nat
  driver_assignments : Nat
deriving DecidableEq, Repr

/-- The returned summary dictionary (`success`/`message` strings omitted;
they are constants derived from these fields). -/
structure DeleteResult where
  client_id : Nat
  client_name : String
  deleted_counts : DeleteCounts
deriving DecidableEq, Repr

/-- SQL `campaign_id IN (ids)` on a nullable column: `NULL` matches nothing. -/
def optIn (ids : List Nat) : Option Nat → Bool
  | some c => ids.contains c
  | none => false

/-- WHERE clause of the child-table UPDATEs (nullable `campaign_id`). -/
def childMatchN (ids : List Nat) (r : CampaignChildRowN) : Bool :=
  optIn ids r.campaign_id && r.is_active

/-- WHERE clause of the child-table UPDATEs (non-nullable `campaign_id`). -/
def childMatch (ids : List Nat) (r : CampaignChildRow) : Bool :=
  ids.contains r.campaign_id && r.is_active

/-- WHERE clause of the campaigns UPDATE (step 4f). -/
def campaignMatch (ids : List Nat) (r : CampaignRow) : Bool :=
  ids.contains r.id && r.is_active

/-- WHERE clause of the projects UPDATE (step 4g). -/
def projectMatch (ids : List Nat) (r : ProjectRow) : Bool :=
  ids.contains r.id && r.is_active

/-- WHERE clause of the client SELECT (step 1) and UPDATE (step 4h). -/
def clientMatch (client_id : Nat) (r : ClientRow) : Bool :=
  r.id == client_id && r.is_active

/-- `.values(is_active=False, updated_at=now)` applied to matching rows. -/
def softDeleteChildN (ids : List Nat) (now : Nat) (r : CampaignChildRowN) : CampaignChildRowN :=
  if childMatchN ids r then { r with is_active := false, updated_at := now } else r

/-- `.values(is_active=False, updated_at=now)` applied to matching rows. -/
def softDeleteChild (ids : List Nat) (now : Nat) (r : CampaignChildRow) : CampaignChildRow :=
  if childMatch ids r then { r with is_active := false, updated_at := now } else r

/-- Step 4f's row transformer. -/
def softDeleteCampaign (ids : List Nat) (now : Nat) (r : CampaignRow) : CampaignRow :=
  if campaignMatch ids r then { r with is_active := false, updated_at := now } else r

/-- Step 4g's row transformer. -/
def softDeleteProject (ids : List Nat) (now : Nat) (r : ProjectRow) : ProjectRow :=
  if projectMatch ids r then { r with is_active := false, updated_at := now } else r

/-- Step 4h's row transformer. -/
def softDeleteClientRow (client_id : Nat) (now : Nat) (r : ClientRow) : ClientRow :=
  if clientMatch client_id r then { r with is_active := false, updated_at := now } else r

/-- Step 2: `SELECT * FROM projects WHERE client_id = :cid AND is_active`. -/
def selectedProjects (db : CascadeDB) (client_id : Nat) : List ProjectRow :=
  db.projects.filter (fun p => p.client_id == client_id && p.is_active)

/-- `project_ids = [p.id for p in projects]`. -/
def projectIds (db : CascadeDB) (client_id : Nat) : List Nat :=
  (selectedProjects db client_id).map (fun p => p.id)

/-- Step 3: campaigns under those projects (the SELECT runs only when
`project_ids` is non-empty; `campaigns` stays `[]` otherwise). -/
def selectedCampaigns (db : CascadeDB) (client_id : Nat) : List CampaignRow :=
  if (projectIds db client_id).isEmpty then []
  else db.campaigns.filter (fun c => (projectIds db client_id).contains c.project_id && c.is_active)

/-- `campaign_ids = [c.id for c in campaigns]`. -/
def campaignIds (db : CascadeDB) (client_id : Nat) : List Nat :=
  (selectedCampaigns db client_id).map (fun c => c.id)

/-- The `counts` dictionary produced by the success path: each entry is the
`rowcount` of the corresponding UPDATE, i.e. the number of rows its WHERE
clause matches (0 when the guarded UPDATE is skipped, since no id is then in
the list). -/
def cascadeCounts (db : CascadeDB) (client_id : Nat) : DeleteCounts :=
  { client := (db.clients.filter (clientMatch client_id)).length
    projects := (db.projects.filter (projectMatch (projectIds db client_id))).length
    campaigns := (db.campaigns.filter (campaignMatch (campaignIds db client_id))).length
    expenses := (db.expenses.filter (childMatchN (campaignIds db client_id))).length
    reports := (db.reports.filter (childMatch (campaignIds db client_id))).length
    invoices := (db.invoices.filter (childMatchN (campaignIds db client_id))).length
    promoter_activities :=
      (db.promoter_activities.filter (childMatch (campaignIds db client_id))).length
    driver_assignments :=
      (db.driver_assignments.filter (childMatchN (campaignIds db client_id))).length }

/-- The committed database of a failure-free run: steps 4a–4h applied.  The
eight UPDATEs touch pairwise different tables, so applying them
simultaneously to the pre-state equals applying them in the code's order. -/
def cascadePost (db : CascadeDB) (client_id now : Nat) : CascadeDB :=
  { clients := db.clients.map (softDeleteClientRow client_id now)
    projects := db.projects.map (softDeleteProject (projectIds db client_id) now)
    campaigns := db.campaigns.map (softDeleteCampaign (campaignIds db client_id) now)
    expenses := db.expenses.map (softDeleteChildN (campaignIds db client_id) now)
    reports := db.reports.map (softDeleteChild (campaignIds db client_id) now)
    invoices := db.invoices.map (softDeleteChildN (campaignIds db client_id) now)
    promoter_activities :=
      db.promoter_activities.map (softDeleteChild (campaignIds db client_id) now)
    driver_assignments :=
      db.driver_assignments.map (softDeleteChildN (campaignIds db client_id) now) }

/-- Steps 2–4h and the commit of `safe_delete_client`, reached once step 1
found the active client row (split out so the lookup's `match` stays
small). -/
def safeDeleteClientGo (db : CascadeDB) (client_id now : Nat) (failAt : Option Nat)
    (client : ClientRow) : Except String DeleteResult × CascadeDB :=
  if failAt = some 1 then (.error "Failed to delete client: database error", db) else
    if ¬(projectIds db client_id).isEmpty ∧ failAt = some 2 then
      (.error "Failed to delete client: database error", db) else
    if ¬(campaignIds db client_id).isEmpty ∧ failAt = some 3 then
      (.error "Failed to delete client: database error", db) else
    if ¬(campaignIds db client_id).isEmpty ∧ failAt = some 4 then
      (.error "Failed to delete client: database error", db) else
    if ¬(campaignIds db client_id).isEmpty ∧ failAt = some 5 then
      (.error "Failed to delete client: database error", db) else
    if ¬(campaignIds db client_id).isEmpty ∧ failAt = some 6 then
      (.error "Failed to delete client: database error", db) else
    if ¬(campaignIds db client_id).isEmpty ∧ failAt = some 7 then
      (.error "Failed to delete client: database error", db) else
    if ¬(campaignIds db client_id).isEmpty ∧ failAt = some 8 then
      (.error "Failed to delete client: database error", db) else
    if ¬(projectIds db client_id).isEmpty ∧ failAt = some 9 then
      (.error "Failed to delete client: database error", db) else
    if failAt = some 10 ∨ failAt = some 11 then
      (.error "Failed to delete client: database error", db) else
    (.ok { client_id := client_id, client_name := client.name,
           deleted_counts := cascadeCounts db client_id },
     cascadePost db client_id now)

/-- `ClientService.safe_delete_client`.  Operation indices for `failAt`:
0 client SELECT, 1 projects SELECT, 2 campaigns SELECT (runs only with
projects), 3–7 the expense/report/invoice/promoter-activity/
driver-assignment UPDATEs (run only with campaigns), 8 campaigns UPDATE,
9 projects UPDATE (runs only with projects), 10 client UPDATE, 11 COMMIT.
Any raise triggers `db.rollback()`, so the returned state is the unchanged
pre-state; the `except` wrapper re-raises. -/
def safeDeleteClient (db : CascadeDB) (client_id now : Nat) (failAt : Option Nat) :
    Except String DeleteResult × CascadeDB :=
  if failAt = some 0 then (.error "Failed to delete client: database error", db) else
  match db.clients.find? (clientMatch client_id) with
  | none => (.error "Failed to delete client: not found or already deleted", db)
  | some client => safeDeleteClientGo db client_id now failAt client

/-- The operation indices that execute in a given run (prefix-closed along
the code path): `failAt = some k` raises exactly when `k` is among them. -/
def cascadeOps (db : CascadeDB) (client_id : Nat) : List Nat :=
  match db.clients.find? (clientMatch client_id) with
  | none => [0]
  | some _ =>
    [0, 1] ++ (if (projectIds db client_id).isEmpty then [] else [2]) ++
    (if (campaignIds db client_id).isEmpty then [] else [3, 4, 5, 6, 7, 8]) ++
    (if (projectIds db client_id).isEmpty then [] else [9]) ++ [10, 11]

/-- Counts the rows whose `is_active` value differs between two runs of the
same table (pointwise). -/
def flippedCount {α : Type} (act : α → Bool) : List α → List α → Nat
  | a :: s, b :: t => (if act a != act b then 1 else 0) + flippedCount act s t
  | _, _ => 0

/-! ### Properties of the cascade's building blocks -/

/-- A project row of the client that is active: exactly what step 2 selects. -/
def activeProjectOf (db : CascadeDB) (client_id pid : Nat) : Prop :=
  ∃ p ∈ db.projects, p.id = pid ∧ p.client_id = client_id ∧ p.is_active = true

/-- An active campaign row under an active project of the client: exactly
what step 3 selects. -/
def activeCampaignOf (db : CascadeDB) (client_id k : Nat) : Prop :=
  ∃ c ∈ db.campaigns, c.id = k ∧ activeProjectOf db client_id c.project_id ∧ c.is_active = true

theorem mem_projectIds_iff (db : CascadeDB) (client_id pid : Nat) :
    pid ∈ projectIds db client_id ↔ activeProjectOf db client_id pid := by
  unfold projectIds selectedProjects activeProjectOf
  constructor
  · intro h
    rcases List.mem_map.mp h with ⟨p, hp, hid⟩
    rcases List.mem_filter.mp hp with ⟨hmem, hpred⟩
    simp only [Bool.and_eq_true, beq_iff_eq] at hpred
    exact ⟨p, hmem, hid, hpred.1, hpred.2⟩
  · rintro ⟨p, hmem, hid, hc, ha⟩
    exact List.mem_map.mpr ⟨p, List.mem_filter.mpr ⟨hmem, by simp [hc, ha]⟩, hid⟩

theorem mem_campaignIds_iff (db : CascadeDB) (client_id k : Nat) :
    k ∈ campaignIds db client_id ↔ activeCampaignOf db client_id k := by
  unfold campaignIds selectedCampaigns activeCampaignOf
  by_cases he : (projectIds db client_id).isEmpty
  · rw [if_pos he]
    constructor
    · intro h
      cases h
    · rintro ⟨c, hmem, hid, hproj, hact⟩
      exfalso
      have hpm : c.project_id ∈ projectIds db client_id :=
        (mem_projectIds_iff db client_id _).mpr hproj
      rw [List.isEmpty_iff] at he
      rw [he] at hpm
      cases hpm
  · rw [if_neg he]
    constructor
    · intro h
      rcases List.mem_map.mp h with ⟨c, hc, hid⟩
      rcases List.mem_filter.mp hc with ⟨hmem, hpred⟩
      rw [Bool.and_eq_true] at hpred
      refine ⟨c, hmem, hid, ?_, hpred.2⟩
      exact (mem_projectIds_iff db client_id _).mp (by simpa using hpred.1)
    · rintro ⟨c, hmem, hid, hproj, hact⟩
      refine List.mem_map.mpr ⟨c, List.mem_filter.mpr ⟨hmem, ?_⟩, hid⟩
      have hpm := (mem_projectIds_iff db client_id c.project_id).mpr hproj
      simp [hpm, hact]

theorem softDeleteClientRow_id (client_id now : Nat) (a : ClientRow) :
    (softDeleteClientRow client_id now a).id = a.id := by
  unfold softDeleteClientRow
  split <;> rfl

theorem softDeleteProject_client_id (ids : List Nat) (now : Nat) (a : ProjectRow) :
    (softDeleteProject ids now a).client_id = a.client_id := by
  unfold softDeleteProject
  split <;> rfl

theorem softDeleteCampaign_project_id (ids : List Nat) (now : Nat) (a : CampaignRow) :
    (softDeleteCampaign ids now a).project_id = a.project_id := by
  unfold softDeleteCampaign
  split <;> rfl

theorem softDeleteChild_campaign_id (ids : List Nat) (now : Nat) (a : CampaignChildRow) :
    (softDeleteChild ids now a).campaign_id = a.campaign_id := by
  unfold softDeleteChild
  split <;> rfl

theorem softDeleteChildN_campaign_id (ids : List Nat) (now : Nat) (a : CampaignChildRowN) :
    (softDeleteChildN ids now a).campaign_id = a.campaign_id := by
  unfold softDeleteChildN
  split <;> rfl

theorem softDeleteClientRow_inactive (client_id now : Nat) (a : ClientRow)
    (h : a.id = client_id) : (softDeleteClientRow client_id now a).is_active = false := by
  unfold softDeleteClientRow clientMatch
  cases hb : a.is_active with
  | true => rw [if_pos (by simp [h, hb])]
  | false =>
    rw [if_neg (by simp [hb])]
    exact hb

theorem softDeleteProject_inactive (ids : List Nat) (now : Nat) (a : ProjectRow)
    (h : a.is_active = true → a.id ∈ ids) :
    (softDeleteProject ids now a).is_active = false := by
  unfold softDeleteProject projectMatch
  cases hb : a.is_active with
  | true => rw [if_pos (by simp [hb, h hb])]
  | false =>
    rw [if_neg (by simp [hb])]
    exact hb

theorem softDeleteCampaign_inactive (ids : List Nat) (now : Nat) (a : CampaignRow)
    (h : a.is_active = true → a.id ∈ ids) :
    (softDeleteCampaign ids now a).is_active = false := by
  unfold softDeleteCampaign campaignMatch
  cases hb : a.is_active with
  | true => rw [if_pos (by simp [hb, h hb])]
  | false =>
    rw [if_neg (by simp [hb])]
    exact hb

theorem softDeleteChild_inactive (ids : List Nat) (now : Nat) (a : CampaignChildRow)
    (h : a.campaign_id ∈ ids) :
    (softDeleteChild ids now a).is_active = false := by
  unfold softDeleteChild childMatch
  cases hb : a.is_active with
  | true => rw [if_pos (by simp [hb, h])]
  | false =>
    rw [if_neg (by simp [hb])]
    exact hb

theorem softDeleteChildN_inactive (ids : List Nat) (now : Nat) (a : CampaignChildRowN)
    (k : Nat) (hk : a.campaign_id = some k) (h : k ∈ ids) :
    (softDeleteChildN ids now a).is_active = false := by
  unfold softDeleteChildN childMatchN
  cases hb : a.is_active with
  | true => rw [if_pos (by simp [hb, optIn, hk, h])]
  | false =>
    rw [if_neg (by simp [hb])]
    exact hb

/-- C1: deleting an existing active client succeeds and afterwards the
client, every previously active project of the client, every previously
active campaign under one of those projects, and every expense, report,
invoice, promoter activity and driver assignment under one of those
campaigns has `is_active = false` (previously inactive rows of the subtree
simply stay inactive). -/
theorem safe_delete_client_cascades (db : CascadeDB) (client_id now : Nat)
    (hex : ∃ c ∈ db.clients, c.id = client_id ∧ c.is_active = true) :
    (∃ res, (safeDeleteClient db client_id now none).1 = .ok res) ∧
    (∀ c ∈ (safeDeleteClient db client_id now none).2.clients,
      c.id = client_id → c.is_active = false) ∧
    (∀ p ∈ (safeDeleteClient db client_id now none).2.projects,
      p.client_id = client_id → p.is_active = false) ∧
    (∀ cp ∈ (safeDeleteClient db client_id now none).2.campaigns,
      activeProjectOf db client_id cp.project_id → cp.is_active = false) ∧
    (∀ e ∈ (safeDeleteClient db client_id now none).2.expenses,
      (∃ k, e.campaign_id = some k ∧ activeCampaignOf db client_id k) →
        e.is_active = false) ∧
    (∀ r ∈ (safeDeleteClient db client_id now none).2.reports,
      activeCampaignOf db client_id r.campaign_id → r.is_active = false) ∧
    (∀ i ∈ (safeDeleteClient db client_id now none).2.invoices,
      (∃ k, i.campaign_id = some k ∧ activeCampaignOf db client_id k) →
        i.is_active = false) ∧
    (∀ pa ∈ (safeDeleteClient db client_id now none).2.promoter_activities,
      activeCampaignOf db client_id pa.campaign_id → pa.is_active = false) ∧
    (∀ d ∈ (safeDeleteClient db client_id now none).2.driver_assignments,
      (∃ k, d.campaign_id = some k ∧ activeCampaignOf db client_id k) →
        d.is_active = false) := by
  rcases hex with ⟨c0, hc0mem, hc0id, hc0act⟩
  have hfind : ∃ client, db.clients.find? (clientMatch client_id) = some client := by
    rcases h : db.clients.find? (clientMatch client_id) with _ | cl
    · exfalso
      have := List.find?_eq_none.mp h c0 hc0mem
      exact this (by simp [clientMatch, hc0id, hc0act])
    · exact ⟨cl, rfl⟩
  rcases hfind with ⟨client, hfind⟩
  have hshape : safeDeleteClient db client_id now none =
      (.ok ⟨client_id, client.name, cascadeCounts db client_id⟩,
        cascadePost db client_id now) := by
    simp [safeDeleteClient, safeDeleteClientGo, hfind]
  rw [hshape]
  refine ⟨⟨_, rfl⟩, ?_, ?_, ?_, ?_, ?_, ?_, ?_, ?_⟩
  · intro c hc hcid
    rcases List.mem_map.mp hc with ⟨a, _, hE⟩
    rw [← hE]
    apply softDeleteClientRow_inactive
    rw [← softDeleteClientRow_id client_id now a, hE, hcid]
  · intro p hp hpid
    rcases List.mem_map.mp hp with ⟨a, ha, hE⟩
    rw [← hE]
    apply softDeleteProject_inactive
    intro hact
    have haid : a.client_id = client_id := by
      rw [← softDeleteProject_client_id (projectIds db client_id) now a, hE, hpid]
    exact (mem_projectIds_iff db client_id a.id).mpr ⟨a, ha, rfl, haid, hact⟩
  · intro cp hcp hproj
    rcases List.mem_map.mp hcp with ⟨a, ha, hE⟩
    rw [← hE]
    apply softDeleteCampaign_inactive
    intro hact
    have haproj : activeProjectOf db client_id a.project_id := by
      have hpp : a.project_id = cp.project_id := by
        rw [← hE, softDeleteCampaign_project_id]
      rw [hpp]
      exact hproj
    exact (mem_campaignIds_iff db client_id a.id).mpr ⟨a, ha, rfl, haproj, hact⟩
  · intro e he hk
    rcases hk with ⟨k, hk, hcamp⟩
    rcases List.mem_map.mp he with ⟨a, _, hE⟩
    rw [← hE]
    refine softDeleteChildN_inactive _ now a k ?_ ((mem_campaignIds_iff db client_id k).mpr hcamp)
    rw [← softDeleteChildN_campaign_id (campaignIds db client_id) now a, hE, hk]
  · intro r hr hcamp
    rcases List.mem_map.mp hr with ⟨a, _, hE⟩
    rw [← hE]
    apply softDeleteChild_inactive
    have : a.campaign_id = r.campaign_id := by
      rw [← hE, softDeleteChild_campaign_id]
    rw [this]
    exact (mem_campaignIds_iff db client_id r.campaign_id).mpr hcamp
  · intro i hi hk
    rcases hk with ⟨k, hk, hcamp⟩
    rcases List.mem_map.mp hi with ⟨a, _, hE⟩
    rw [← hE]
    refine softDeleteChildN_inactive _ now a k ?_ ((mem_campaignIds_iff db client_id k).mpr hcamp)
    rw [← softDeleteChildN_campaign_id (campaignIds db client_id) now a, hE, hk]
  · intro pa hpa hcamp
    rcases List.mem_map.mp hpa with ⟨a, _, hE⟩
    rw [← hE]
    apply softDeleteChild_inactive
    have : a.campaign_id = pa.campaign_id := by
      rw [← hE, softDeleteChild_campaign_id]
    rw [this]
    exact (mem_campaignIds_iff db client_id pa.campaign_id).mpr hcamp
  · intro d hd hk
    rcases hk with ⟨k, hk, hcamp⟩
    rcases List.mem_map.mp hd with ⟨a, _, hE⟩
    rw [← hE]
    refine softDeleteChildN_inactive _ now a k ?_ ((mem_campaignIds_iff db client_id k).mpr hcamp)
    rw [← softDeleteChildN_campaign_id (campaignIds db client_id) now a, hE, hk]

/-- Witness for C1 on a one-row-per-table database. -/
theorem safe_delete_client_cascades_witness :
    ∃ res, (safeDeleteClient
      ⟨[⟨7, "acme", true, 0, 1⟩], [⟨3, 7, true, 0, 2⟩], [⟨4, 3, true, 0, 3⟩],
       [⟨5, some 4, true, 0, 4⟩], [⟨6, 4, true, 0, 5⟩], [⟨8, some 4, true, 0, 6⟩],
       [⟨9, 4, true, 0, 7⟩], [⟨10, some 4, true, 0, 8⟩]⟩ 7 42 none).1 = .ok res :=
  (safe_delete_client_cascades
    ⟨[⟨7, "acme", true, 0, 1⟩], [⟨3, 7, true, 0, 2⟩], [⟨4, 3, true, 0, 3⟩],
     [⟨5, some 4, true, 0, 4⟩], [⟨6, 4, true, 0, 5⟩], [⟨8, some 4, true, 0, 6⟩],
     [⟨9, 4, true, 0, 7⟩], [⟨10, some 4, true, 0, 8⟩]⟩ 7 42
    ⟨⟨7, "acme", true, 0, 1⟩, by decide, rfl, rfl⟩).1

/-! ### Frame properties of the cascade (C3) -/

/-- The campaign row hangs under some project of the client (active or not). -/
def campaignOfClient (db : CascadeDB) (client_id : Nat) (c : CampaignRow) : Prop :=
  ∃ p ∈ db.projects, p.id = c.project_id ∧ p.client_id = client_id

/-- The campaign id names a campaign of the client's subtree. -/
def subtreeCampaignId (db : CascadeDB) (client_id k : Nat) : Prop :=
  ∃ c ∈ db.campaigns, c.id = k ∧
    ∃ p ∈ db.projects, p.id = c.project_id ∧ p.client_id = client_id

theorem subtree_of_active (db : CascadeDB) (client_id k : Nat)
    (h : activeCampaignOf db client_id k) : subtreeCampaignId db client_id k := by
  rcases h with ⟨c, hc, hcid, ⟨p, hp, hpid, hpc, _⟩, _⟩
  exact ⟨c, hc, hcid, p, hp, hpid, hpc⟩

/-- Frame relation for a `clients` row: `id`, `name` and the remaining
columns (`rest`) are preserved, and a row of another client is untouched. -/
def clientFrame (client_id : Nat) (pre post : ClientRow) : Prop :=
  post.id = pre.id ∧ post.name = pre.name ∧ post.rest = pre.rest ∧
  (pre.id ≠ client_id → post = pre)

/-- Frame relation for a `projects` row. -/
def projectFrame (client_id : Nat) (pre post : ProjectRow) : Prop :=
  post.id = pre.id ∧ post.client_id = pre.client_id ∧ post.rest = pre.rest ∧
  (pre.client_id ≠ client_id → post = pre)

/-- Frame relation for a `campaigns` row. -/
def campaignFrame (db : CascadeDB) (client_id : Nat) (pre post : CampaignRow) : Prop :=
  post.id = pre.id ∧ post.project_id = pre.project_id ∧ post.rest = pre.rest ∧
  (¬ campaignOfClient db client_id pre → post = pre)

/-- Frame relation for a child row with non-nullable `campaign_id`. -/
def childFrame (db : CascadeDB) (client_id : Nat) (pre post : CampaignChildRow) : Prop :=
  post.id = pre.id ∧ post.campaign_id = pre.campaign_id ∧ post.rest = pre.rest ∧
  (¬ subtreeCampaignId db client_id pre.campaign_id → post = pre)

/-- Frame relation for a child row with nullable `campaign_id`. -/
def childFrameN (db : CascadeDB) (client_id : Nat) (pre post : CampaignChildRowN) : Prop :=
  post.id = pre.id ∧ post.campaign_id = pre.campaign_id ∧ post.rest = pre.rest ∧
  ((¬ ∃ k, pre.campaign_id = some k ∧ subtreeCampaignId db client_id k) → post = pre)

theorem forall2_map_self {α : Type} (R : α → α → Prop) (f : α → α) (l : List α)
    (h : ∀ a ∈ l, R a (f a)) : List.Forall₂ R l (l.map f) := by
  induction l with
  | nil => exact List.Forall₂.nil
  | cons a t ih =>
    exact List.Forall₂.cons (h a (List.mem_cons_self a t))
      (ih (fun x hx => h x (List.mem_cons_of_mem a hx)))

theorem forall2_self {α : Type} (R : α → α → Prop) (l : List α)
    (h : ∀ a ∈ l, R a a) : List.Forall₂ R l l := by
  induction l with
  | nil => exact List.Forall₂.nil
  | cons a t ih =>
    exact List.Forall₂.cons (h a (List.mem_cons_self a t))
      (ih (fun x hx => h x (List.mem_cons_of_mem a hx)))

/-- In every run — raising or not — the final state is the original or the
fully cascaded one: only `is_active`/`updated_at` of the subtree change. -/
theorem safeDeleteClient_state_cases (db : CascadeDB) (client_id now : Nat)
    (failAt : Option Nat) :
    (safeDeleteClient db client_id now failAt).2 = db ∨
    (safeDeleteClient db client_id now failAt).2 = cascadePost db client_id now := by
  delta safeDeleteClient
  by_cases h0 : failAt = some 0
  · rw [if_pos h0]
    exact Or.inl rfl
  rw [if_neg h0]
  split
  · exact Or.inl rfl
  delta safeDeleteClientGo
  by_cases h1 : failAt = some 1
  · rw [if_pos h1]
    exact Or.inl rfl
  rw [if_neg h1]
  by_cases h2 : ¬(projectIds db client_id).isEmpty ∧ failAt = some 2
  · rw [if_pos h2]
    exact Or.inl rfl
  rw [if_neg h2]
  by_cases h3 : ¬(campaignIds db client_id).isEmpty ∧ failAt = some 3
  · rw [if_pos h3]
    exact Or.inl rfl
  rw [if_neg h3]
  by_cases h4 : ¬(campaignIds db client_id).isEmpty ∧ failAt = some 4
  · rw [if_pos h4]
    exact Or.inl rfl
  rw [if_neg h4]
  by_cases h5 : ¬(campaignIds db client_id).isEmpty ∧ failAt = some 5
  · rw [if_pos h5]
    exact Or.inl rfl
  rw [if_neg h5]
  by_cases h6 : ¬(campaignIds db client_id).isEmpty ∧ failAt = some 6
  · rw [if_pos h6]
    exact Or.inl rfl
  rw [if_neg h6]
  by_cases h7 : ¬(campaignIds db client_id).isEmpty ∧ failAt = some 7
  · rw [if_pos h7]
    exact Or.inl rfl
  rw [if_neg h7]
  by_cases h8 : ¬(campaignIds db client_id).isEmpty ∧ failAt = some 8
  · rw [if_pos h8]
    exact Or.inl rfl
  rw [if_neg h8]
  by_cases h9 : ¬(projectIds db client_id).isEmpty ∧ failAt = some 9
  · rw [if_pos h9]
    exact Or.inl rfl
  rw [if_neg h9]
  by_cases h10 : failAt = some 10 ∨ failAt = some 11
  · rw [if_pos h10]
    exact Or.inl rfl
  rw [if_neg h10]
  exact Or.inr rfl

/-- C3: `safe_delete_client` removes no rows (`Forall2` pairs the tables row
by row), modifies only `is_active` and `updated_at`, and only on rows of the
deleted client's subtree; every other row is returned unchanged.  `hproj` /
`hcamp` are the primary-key uniqueness of `projects.id` / `campaigns.id`. -/
theorem safe_delete_client_frame (db : CascadeDB) (client_id now : Nat) (failAt : Option Nat)
    (hproj : db.projects.Pairwise (fun a b => a.id ≠ b.id))
    (hcamp : db.campaigns.Pairwise (fun a b => a.id ≠ b.id)) :
    List.Forall₂ (clientFrame client_id) db.clients
      (safeDeleteClient db client_id now failAt).2.clients ∧
    List.Forall₂ (projectFrame client_id) db.projects
      (safeDeleteClient db client_id now failAt).2.projects ∧
    List.Forall₂ (campaignFrame db client_id) db.campaigns
      (safeDeleteClient db client_id now failAt).2.campaigns ∧
    List.Forall₂ (childFrameN db client_id) db.expenses
      (safeDeleteClient db client_id now failAt).2.expenses ∧
    List.Forall₂ (childFrame db client_id) db.reports
      (safeDeleteClient db client_id now failAt).2.reports ∧
    List.Forall₂ (childFrameN db client_id) db.invoices
      (safeDeleteClient db client_id now failAt).2.invoices ∧
    List.Forall₂ (childFrame db client_id) db.promoter_activities
      (safeDeleteClient db client_id now failAt).2.promoter_activities ∧
    List.Forall₂ (childFrameN db client_id) db.driver_assignments
      (safeDeleteClient db client_id now failAt).2.driver_assignments := by
  rcases safeDeleteClient_state_cases db client_id now failAt with hpost | hpost <;> rw [hpost]
  · exact ⟨forall2_self _ _ (fun a _ => ⟨rfl, rfl, rfl, fun _ => rfl⟩),
      forall2_self _ _ (fun a _ => ⟨rfl, rfl, rfl, fun _ => rfl⟩),
      forall2_self _ _ (fun a _ => ⟨rfl, rfl, rfl, fun _ => rfl⟩),
      forall2_self _ _ (fun a _ => ⟨rfl, rfl, rfl, fun _ => rfl⟩),
      forall2_self _ _ (fun a _ => ⟨rfl, rfl, rfl, fun _ => rfl⟩),
      forall2_self _ _ (fun a _ => ⟨rfl, rfl, rfl, fun _ => rfl⟩),
      forall2_self _ _ (fun a _ => ⟨rfl, rfl, rfl, fun _ => rfl⟩),
      forall2_self _ _ (fun a _ => ⟨rfl, rfl, rfl, fun _ => rfl⟩)⟩
  refine ⟨?_, ?_, ?_, ?_, ?_, ?_, ?_, ?_⟩
  · apply forall2_map_self
    intro a _
    unfold softDeleteClientRow
    split
    · rename_i hcond
      simp only [clientMatch, Bool.and_eq_true, beq_iff_eq] at hcond
      exact ⟨rfl, rfl, rfl, fun hne => absurd hcond.1 hne⟩
    · exact ⟨rfl, rfl, rfl, fun _ => rfl⟩
  · apply forall2_map_self
    intro a ha
    unfold softDeleteProject
    split
    · rename_i hcond
      simp only [projectMatch, Bool.and_eq_true] at hcond
      refine ⟨rfl, rfl, rfl, fun hne => absurd ?_ hne⟩
      have hmem : a.id ∈ projectIds db client_id := by simpa using hcond.1
      rcases (mem_projectIds_iff db client_id a.id).mp hmem with ⟨q, hq, hqid, hqc, _⟩
      have : q = a := pairwise_key_eq hproj hq ha hqid
      rw [← this]
      exact hqc
    · exact ⟨rfl, rfl, rfl, fun _ => rfl⟩
  · apply forall2_map_self
    intro a ha
    unfold softDeleteCampaign
    split
    · rename_i hcond
      simp only [campaignMatch, Bool.and_eq_true] at hcond
      refine ⟨rfl, rfl, rfl, fun hne => absurd ?_ hne⟩
      have hmem : a.id ∈ campaignIds db client_id := by simpa using hcond.1
      rcases (mem_campaignIds_iff db client_id a.id).mp hmem with
        ⟨c, hc, hcid, ⟨p, hp, hpid, hpc, _⟩, _⟩
      have hca : c = a := pairwise_key_eq hcamp hc ha hcid
      exact ⟨p, hp, by rw [← hca]; exact hpid, hpc⟩
    · exact ⟨rfl, rfl, rfl, fun _ => rfl⟩
  · apply forall2_map_self
    intro a _
    unfold softDeleteChildN
    split
    · rename_i hcond
      simp only [childMatchN, Bool.and_eq_true] at hcond
      refine ⟨rfl, rfl, rfl, fun hne => absurd ?_ hne⟩
      rcases hck : a.campaign_id with _ | k
      · rw [hck] at hcond
        cases hcond.1
      · rw [hck] at hcond
        have hmem : k ∈ campaignIds db client_id := by simpa [optIn] using hcond.1
        exact ⟨k, rfl, subtree_of_active db client_id k
          ((mem_campaignIds_iff db client_id k).mp hmem)⟩
    · exact ⟨rfl, rfl, rfl, fun _ => rfl⟩
  · apply forall2_map_self
    intro a _
    unfold softDeleteChild
    split
    · rename_i hcond
      simp only [childMatch, Bool.and_eq_true] at hcond
      refine ⟨rfl, rfl, rfl, fun hne => absurd ?_ hne⟩
      have hmem : a.campaign_id ∈ campaignIds db client_id := by simpa using hcond.1
      exact subtree_of_active db client_id _
        ((mem_campaignIds_iff db client_id _).mp hmem)
    · exact ⟨rfl, rfl, rfl, fun _ => rfl⟩
  · apply forall2_map_self
    intro a _
    unfold softDeleteChildN
    split
    · rename_i hcond
      simp only [childMatchN, Bool.and_eq_true] at hcond
      refine ⟨rfl, rfl, rfl, fun hne => absurd ?_ hne⟩
      rcases hck : a.campaign_id with _ | k
      · rw [hck] at hcond
        cases hcond.1
      · rw [hck] at hcond
        have hmem : k ∈ campaignIds db client_id := by simpa [optIn] using hcond.1
        exact ⟨k, rfl, subtree_of_active db client_id k
          ((mem_campaignIds_iff db client_id k).mp hmem)⟩
    · exact ⟨rfl, rfl, rfl, fun _ => rfl⟩
  · apply forall2_map_self
    intro a _
    unfold softDeleteChild
    split
    · rename_i hcond
      simp only [childMatch, Bool.and_eq_true] at hcond
      refine ⟨rfl, rfl, rfl, fun hne => absurd ?_ hne⟩
      have hmem : a.campaign_id ∈ campaignIds db client_id := by simpa using hcond.1
      exact subtree_of_active db client_id _
        ((mem_campaignIds_iff db client_id _).mp hmem)
    · exact ⟨rfl, rfl, rfl, fun _ => rfl⟩
  · apply forall2_map_self
    intro a _
    unfold softDeleteChildN
    split
    · rename_i hcond
      simp only [childMatchN, Bool.and_eq_true] at hcond
      refine ⟨rfl, rfl, rfl, fun hne => absurd ?_ hne⟩
      rcases hck : a.campaign_id with _ | k
      · rw [hck] at hcond
        cases hcond.1
      · rw [hck] at hcond
        have hmem : k ∈ campaignIds db client_id := by simpa [optIn] using hcond.1
        exact ⟨k, rfl, subtree_of_active db client_id k
          ((mem_campaignIds_iff db client_id k).mp hmem)⟩
    · exact ⟨rfl, rfl, rfl, fun _ => rfl⟩

/-- Witness for C3 on a small concrete database (the client table's frame). -/
theorem safe_delete_client_frame_witness :
    List.Forall₂ (clientFrame 7)
      [(⟨7, "acme", true, 0, 1⟩ : ClientRow), ⟨8, "other", true, 3, 2⟩]
      ((safeDeleteClient
        ⟨[⟨7, "acme", true, 0, 1⟩, ⟨8, "other", true, 3, 2⟩],
         [⟨3, 7, true, 0, 2⟩], [⟨4, 3, true, 0, 3⟩],
         [⟨5, some 4, true, 0, 4⟩], [⟨6, 4, true, 0, 5⟩], [⟨8, some 4, true, 0, 6⟩],
         [⟨9, 4, true, 0, 7⟩], [⟨10, some 4, true, 0, 8⟩]⟩ 7 42 none).2.clients) :=
  (safe_delete_client_frame
    ⟨[⟨7, "acme", true, 0, 1⟩, ⟨8, "other", true, 3, 2⟩],
     [⟨3, 7, true, 0, 2⟩], [⟨4, 3, true, 0, 3⟩],
     [⟨5, some 4, true, 0, 4⟩], [⟨6, 4, true, 0, 5⟩], [⟨8, some 4, true, 0, 6⟩],
     [⟨9, 4, true, 0, 7⟩], [⟨10, some 4, true, 0, 8⟩]⟩ 7 42 none
    (by decide) (by decide)).1

/-! ### Atomicity of the cascade (C2) -/

theorem flippedCount_map {α : Type} (act : α → Bool) (pred : α → Bool) (f : α → α)
    (h1 : ∀ a, pred a = true → act (f a) = !(act a))
    (h2 : ∀ a, pred a = false → f a = a)
    (l : List α) :
    flippedCount act l (l.map f) = (l.filter pred).length := by
  induction l with
  | nil => rfl
  | cons a t ih =>
    rw [List.map_cons, List.filter_cons]
    show (if act a != act (f a) then 1 else 0) + flippedCount act t (t.map f) = _
    cases hp : pred a with
    | true =>
      rw [h1 a hp]
      cases act a <;> simp [ih, Nat.add_comm]
    | false =>
      rw [h2 a hp]
      simp [ih]

theorem softDeleteClientRow_flip (client_id now : Nat) (a : ClientRow)
    (h : clientMatch client_id a = true) :
    (softDeleteClientRow client_id now a).is_active = !(a.is_active) := by
  unfold softDeleteClientRow
  rw [if_pos h]
  simp only [clientMatch, Bool.and_eq_true] at h
  show false = !(a.is_active)
  rw [h.2]
  rfl

theorem softDeleteClientRow_keep (client_id now : Nat) (a : ClientRow)
    (h : clientMatch client_id a = false) : softDeleteClientRow client_id now a = a := by
  unfold softDeleteClientRow
  rw [if_neg (by simp [h])]

theorem softDeleteProject_flip (ids : List Nat) (now : Nat) (a : ProjectRow)
    (h : projectMatch ids a = true) :
    (softDeleteProject ids now a).is_active = !(a.is_active) := by
  unfold softDeleteProject
  rw [if_pos h]
  simp only [projectMatch, Bool.and_eq_true] at h
  show false = !(a.is_active)
  rw [h.2]
  rfl

theorem softDeleteProject_keep (ids : List Nat) (now : Nat) (a : ProjectRow)
    (h : projectMatch ids a = false) : softDeleteProject ids now a = a := by
  unfold softDeleteProject
  rw [if_neg (by simp [h])]

theorem softDeleteCampaign_flip (ids : List Nat) (now : Nat) (a : CampaignRow)
    (h : campaignMatch ids a = true) :
    (softDeleteCampaign ids now a).is_active = !(a.is_active) := by
  unfold softDeleteCampaign
  rw [if_pos h]
  simp only [campaignMatch, Bool.and_eq_true] at h
  show false = !(a.is_active)
  rw [h.2]
  rfl

theorem softDeleteCampaign_keep (ids : List Nat) (now : Nat) (a : CampaignRow)
    (h : campaignMatch ids a = false) : softDeleteCampaign ids now a = a := by
  unfold softDeleteCampaign
  rw [if_neg (by simp [h])]

theorem softDeleteChild_flip (ids : List Nat) (now : Nat) (a : CampaignChildRow)
    (h : childMatch ids a = true) :
    (softDeleteChild ids now a).is_active = !(a.is_active) := by
  unfold softDeleteChild
  rw [if_pos h]
  simp only [childMatch, Bool.and_eq_true] at h
  show false = !(a.is_active)
  rw [h.2]
  rfl

theorem softDeleteChild_keep (ids : List Nat) (now : Nat) (a : CampaignChildRow)
    (h : childMatch ids a = false) : softDeleteChild ids now a = a := by
  unfold softDeleteChild
  rw [if_neg (by simp [h])]

theorem softDeleteChildN_flip (ids : List Nat) (now : Nat) (a : CampaignChildRowN)
    (h : childMatchN ids a = true) :
    (softDeleteChildN ids now a).is_active = !(a.is_active) := by
  unfold softDeleteChildN
  rw [if_pos h]
  simp only [childMatchN, Bool.and_eq_true] at h
  show false = !(a.is_active)
  rw [h.2]
  rfl

theorem softDeleteChildN_keep (ids : List Nat) (now : Nat) (a : CampaignChildRowN)
    (h : childMatchN ids a = false) : softDeleteChildN ids now a = a := by
  unfold softDeleteChildN
  rw [if_neg (by simp [h])]

theorem mem_cascadeOps (db : CascadeDB) (client_id : Nat) (client : ClientRow)
    (hfind : db.clients.find? (clientMatch client_id) = some client) (k : Nat) :
    k ∈ cascadeOps db client_id ↔
      (k = 0 ∨ k = 1 ∨
        (¬(projectIds db client_id).isEmpty = true ∧ k = 2) ∨
        (¬(campaignIds db client_id).isEmpty = true ∧
          (k = 3 ∨ k = 4 ∨ k = 5 ∨ k = 6 ∨ k = 7 ∨ k = 8)) ∨
        (¬(projectIds db client_id).isEmpty = true ∧ k = 9) ∨
        k = 10 ∨ k = 11) := by
  by_cases hpe : (projectIds db client_id).isEmpty = true <;>
    by_cases hce : (campaignIds db client_id).isEmpty = true <;>
    simp [cascadeOps, hfind, hpe, hce] <;> omega

/-- A run against a missing or inactive client raises and rolls back. -/
theorem safeDeleteClient_err_notfound (db : CascadeDB) (client_id now : Nat)
    (failAt : Option Nat) (hf : db.clients.find? (clientMatch client_id) = none) :
    ∃ e, safeDeleteClient db client_id now failAt = (.error e, db) := by
  by_cases h0 : failAt = some 0 <;> simp [safeDeleteClient, hf, h0]

/-- A run whose injected failure point is an operation that executes raises
and rolls back. -/
theorem safeDeleteClient_err_gate (db : CascadeDB) (client_id now : Nat) (k : Nat)
    (hk : k ∈ cascadeOps db client_id) :
    ∃ e, safeDeleteClient db client_id now (some k) = (.error e, db) := by
  rcases hfc : db.clients.find? (clientMatch client_id) with _ | client
  · exact safeDeleteClient_err_notfound db client_id now (some k) hfc
  · have hd := (mem_cascadeOps db client_id client hfc k).mp hk
    rcases hd with h | h | ⟨hp, h⟩ | ⟨hc, h | h | h | h | h | h⟩ | ⟨hp, h⟩ | h | h <;>
      subst h <;> simp [safeDeleteClient, safeDeleteClientGo, hfc, *]

/-- The failure-free shape of a run against an existing active client. -/
theorem safeDeleteClient_ok (db : CascadeDB) (client_id now : Nat) (failAt : Option Nat)
    (client : ClientRow)
    (hfind : db.clients.find? (clientMatch client_id) = some client)
    (hnof : ∀ k, failAt = some k → k ∉ cascadeOps db client_id) :
    safeDeleteClient db client_id now failAt =
      (.ok { client_id := client_id, client_name := client.name,
             deleted_counts := cascadeCounts db client_id },
       cascadePost db client_id now) := by
  have hmem := mem_cascadeOps db client_id client hfind
  have h0 : ¬ failAt = some 0 := fun h => hnof 0 h ((hmem 0).mpr (Or.inl rfl))
  have h1 : ¬ failAt = some 1 := fun h => hnof 1 h ((hmem 1).mpr (Or.inr (Or.inl rfl)))
  have h2 : ¬(¬(projectIds db client_id).isEmpty = true ∧ failAt = some 2) := by
    rintro ⟨hp, hfa⟩
    exact hnof 2 hfa ((hmem 2).mpr (Or.inr (Or.inr (Or.inl ⟨hp, rfl⟩))))
  have h3 : ¬(¬(campaignIds db client_id).isEmpty = true ∧ failAt = some 3) := by
    rintro ⟨hc, hfa⟩
    exact hnof 3 hfa ((hmem 3).mpr (Or.inr (Or.inr (Or.inr (Or.inl ⟨hc, Or.inl rfl⟩)))))
  have h4 : ¬(¬(campaignIds db client_id).isEmpty = true ∧ failAt = some 4) := by
    rintro ⟨hc, hfa⟩
    exact hnof 4 hfa ((hmem 4).mpr (Or.inr (Or.inr (Or.inr (Or.inl ⟨hc, Or.inr (Or.inl rfl)⟩)))))
  have h5 : ¬(¬(campaignIds db client_id).isEmpty = true ∧ failAt = some 5) := by
    rintro ⟨hc, hfa⟩
    exact hnof 5 hfa ((hmem 5).mpr (Or.inr (Or.inr (Or.inr (Or.inl ⟨hc, Or.inr (Or.inr (Or.inl rfl))⟩)))))
  have h6 : ¬(¬(campaignIds db client_id).isEmpty = true ∧ failAt = some 6) := by
    rintro ⟨hc, hfa⟩
    exact hnof 6 hfa ((hmem 6).mpr (Or.inr (Or.inr (Or.inr (Or.inl ⟨hc, Or.inr (Or.inr (Or.inr (Or.inl rfl)))⟩)))))
  have h7 : ¬(¬(campaignIds db client_id).isEmpty = true ∧ failAt = some 7) := by
    rintro ⟨hc, hfa⟩
    exact hnof 7 hfa ((hmem 7).mpr (Or.inr (Or.inr (Or.inr (Or.inl ⟨hc, Or.inr (Or.inr (Or.inr (Or.inr (Or.inl rfl))))⟩)))))
  have h8 : ¬(¬(campaignIds db client_id).isEmpty = true ∧ failAt = some 8) := by
    rintro ⟨hc, hfa⟩
    exact hnof 8 hfa ((hmem 8).mpr (Or.inr (Or.inr (Or.inr (Or.inl ⟨hc, Or.inr (Or.inr (Or.inr (Or.inr (Or.inr rfl))))⟩)))))
  have h9 : ¬(¬(projectIds db client_id).isEmpty = true ∧ failAt = some 9) := by
    rintro ⟨hp, hfa⟩
    exact hnof 9 hfa ((hmem 9).mpr (Or.inr (Or.inr (Or.inr (Or.inr (Or.inl ⟨hp, rfl⟩))))))
  have h10 : ¬(failAt = some 10 ∨ failAt = some 11) := by
    rintro (hfa | hfa)
    · exact hnof 10 hfa ((hmem 10).mpr (Or.inr (Or.inr (Or.inr (Or.inr (Or.inr (Or.inl rfl)))))))
    · exact hnof 11 hfa ((hmem 11).mpr (Or.inr (Or.inr (Or.inr (Or.inr (Or.inr (Or.inr rfl)))))))
  have hGo : safeDeleteClientGo db client_id now failAt client =
      (.ok { client_id := client_id, client_name := client.name,
             deleted_counts := cascadeCounts db client_id },
       cascadePost db client_id now) := by
    delta safeDeleteClientGo
    rw [if_neg h1, if_neg h2, if_neg h3, if_neg h4, if_neg h5, if_neg h6, if_neg h7,
      if_neg h8, if_neg h9, if_neg h10]
  delta safeDeleteClient
  rw [if_neg h0, hfind]
  exact hGo

/-- C2: `safe_delete_client` is atomic.  It raises exactly when the client
lookup finds no active row or the injected failure point is an operation the
run executes; every raising run leaves the database unchanged (rollback);
and in a successful run each `deleted_counts` entry equals the number of
rows of that table whose `is_active` flag was flipped. -/
theorem safe_delete_client_atomic (db : CascadeDB) (client_id now : Nat)
    (failAt : Option Nat) :
    ((∃ e, (safeDeleteClient db client_id now failAt).1 = .error e) ↔
      (db.clients.find? (clientMatch client_id) = none ∨
        ∃ k, failAt = some k ∧ k ∈ cascadeOps db client_id)) ∧
    ((∃ e, (safeDeleteClient db client_id now failAt).1 = .error e) →
      (safeDeleteClient db client_id now failAt).2 = db) ∧
    (∀ res, (safeDeleteClient db client_id now failAt).1 = .ok res →
      res.deleted_counts.client = flippedCount (fun r => r.is_active) db.clients
        (safeDeleteClient db client_id now failAt).2.clients ∧
      res.deleted_counts.projects = flippedCount (fun r => r.is_active) db.projects
        (safeDeleteClient db client_id now failAt).2.projects ∧
      res.deleted_counts.campaigns = flippedCount (fun r => r.is_active) db.campaigns
        (safeDeleteClient db client_id now failAt).2.campaigns ∧
      res.deleted_counts.expenses = flippedCount (fun r => r.is_active) db.expenses
        (safeDeleteClient db client_id now failAt).2.expenses ∧
      res.deleted_counts.reports = flippedCount (fun r => r.is_active) db.reports
        (safeDeleteClient db client_id now failAt).2.reports ∧
      res.deleted_counts.invoices = flippedCount (fun r => r.is_active) db.invoices
        (safeDeleteClient db client_id now failAt).2.invoices ∧
      res.deleted_counts.promoter_activities =
        flippedCount (fun r => r.is_active) db.promoter_activities
          (safeDeleteClient db client_id now failAt).2.promoter_activities ∧
      res.deleted_counts.driver_assignments =
        flippedCount (fun r => r.is_active) db.driver_assignments
          (safeDeleteClient db client_id now failAt).2.driver_assignments) := by
  by_cases hR : db.clients.find? (clientMatch client_id) = none ∨
      ∃ k, failAt = some k ∧ k ∈ cascadeOps db client_id
  · have herr : ∃ e, safeDeleteClient db client_id now failAt = (.error e, db) := by
      rcases hR with hf | ⟨k, hfa, hk⟩
      · exact safeDeleteClient_err_notfound db client_id now failAt hf
      · rw [hfa]
        exact safeDeleteClient_err_gate db client_id now k hk
    rcases herr with ⟨e, he⟩
    refine ⟨⟨fun _ => hR, fun _ => ⟨e, by rw [he]⟩⟩, fun _ => by rw [he], ?_⟩
    intro res hres
    rw [he] at hres
    simp at hres
  · have hR' := hR
    push_neg at hR'
    obtain ⟨hne, hnof⟩ := hR'
    rcases hfc : db.clients.find? (clientMatch client_id) with _ | client
    · exact absurd hfc hne
    have hok := safeDeleteClient_ok db client_id now failAt client hfc
      (fun k hk hmem => hnof k hk hmem)
    refine ⟨⟨?_, fun h => absurd (show _ ∨ _ by rw [hfc]; exact h) hR⟩, ?_, ?_⟩
    · rintro ⟨e, he⟩
      rw [hok] at he
      simp at he
    · rintro ⟨e, he⟩
      rw [hok] at he
      simp at he
    · intro res hres
      rw [hok] at hres
      simp only [Except.ok.injEq] at hres
      rw [hok, ← hres]
      exact ⟨(flippedCount_map _ (clientMatch client_id) _
          (softDeleteClientRow_flip client_id now)
          (softDeleteClientRow_keep client_id now) db.clients).symm,
        (flippedCount_map _ (projectMatch (projectIds db client_id)) _
          (softDeleteProject_flip (projectIds db client_id) now)
          (softDeleteProject_keep (projectIds db client_id) now) db.projects).symm,
        (flippedCount_map _ (campaignMatch (campaignIds db client_id)) _
          (softDeleteCampaign_flip (campaignIds db client_id) now)
          (softDeleteCampaign_keep (campaignIds db client_id) now) db.campaigns).symm,
        (flippedCount_map _ (childMatchN (campaignIds db client_id)) _
          (softDeleteChildN_flip (campaignIds db client_id) now)
          (softDeleteChildN_keep (campaignIds db client_id) now) db.expenses).symm,
        (flippedCount_map _ (childMatch (campaignIds db client_id)) _
          (softDeleteChild_flip (campaignIds db client_id) now)
          (softDeleteChild_keep (campaignIds db client_id) now) db.reports).symm,
        (flippedCount_map _ (childMatchN (campaignIds db client_id)) _
          (softDeleteChildN_flip (campaignIds db client_id) now)
          (softDeleteChildN_keep (campaignIds db client_id) now) db.invoices).symm,
        (flippedCount_map _ (childMatch (campaignIds db client_id)) _
          (softDeleteChild_flip (campaignIds db client_id) now)
          (softDeleteChild_keep (campaignIds db client_id) now) db.promoter_activities).symm,
        (flippedCount_map _ (childMatchN (campaignIds db client_id)) _
          (softDeleteChildN_flip (campaignIds db client_id) now)
          (softDeleteChildN_keep (campaignIds db client_id) now) db.driver_assignments).symm⟩

/-- Witness for C2: a run whose client SELECT fails (operation 0) raises and
leaves the one-client database unchanged. -/
theorem safe_delete_client_atomic_witness :
    (safeDeleteClient ⟨[⟨1, "c", true, 0, 0⟩], [], [], [], [], [], [], []⟩ 1 5 (some 0)).2 =
      ⟨[⟨1, "c", true, 0, 0⟩], [], [], [], [], [], [], []⟩ :=
  (safe_delete_client_atomic ⟨[⟨1, "c", true, 0, 0⟩], [], [], [], [], [], [], []⟩
      1 5 (some 0)).2.1
    ((safe_delete_client_atomic ⟨[⟨1, "c", true, 0, 0⟩], [], [], [], [], [], [], []⟩
        1 5 (some 0)).1.mpr (Or.inr ⟨0, rfl, by decide⟩))

/-! ## GPS distance (`app/utils/gps_utils.py`, `app/models/daily_km_log.py`)

Python float arithmetic is modelled over the real numbers. -/

noncomputable section

/-- `math.radians`: degrees to radians. -/
def radians (x : ℝ) : ℝ := x * (Real.pi / 180)

/-- `math.atan2 y x`: the two-argument (quadrant-aware) arctangent, with
`atan2 0 0 = 0` as in CPython. -/
def atan2 (y x : ℝ) : ℝ :=
  if 0 < x then Real.arctan (y / x)
  else if x < 0 then
    (if 0 ≤ y then Real.arctan (y / x) + Real.pi else Real.arctan (y / x) - Real.pi)
  else
    (if 0 < y then Real.pi / 2 else if y < 0 then -(Real.pi / 2) else 0)

/-- Python's `round(x, 2)`: rounding to two decimal places. -/
def round2 (x : ℝ) : ℝ := (round (x * 100) : ℤ) / 100

/-- `haversine_distance` from `app/utils/gps_utils.py`. -/
def haversine_distance (lat1 lon1 lat2 lon2 : ℝ) : ℝ :=
  let R : ℝ := 6371.0
  let lat1_rad := radians lat1
  let lon1_rad := radians lon1
  let lat2_rad := radians lat2
  let lon2_rad := radians lon2
  let dlat := lat2_rad - lat1_rad
  let dlon := lon2_rad - lon1_rad
  let a := Real.sin (dlat / 2) ^ 2 +
    Real.cos lat1_rad * Real.cos lat2_rad * Real.sin (dlon / 2) ^ 2
  let c := 2 * atan2 (Real.sqrt a) (Real.sqrt (1 - a))
  let distance := R * c
  round2 distance

/-- Modelled from the spec: the textbook haversine great-circle distance
`a = sin²(Δφ/2) + cos φ1 · cos φ2 · sin²(Δλ/2)`, `c = 2·atan2(√a, √(1−a))`,
`d = R·c` with Earth radius `R = 6371` km, rounded to two decimal places
(for comparison with the implementation). -/
def textbookHaversine (phi1 lam1 phi2 lam2 : ℝ) : ℝ :=
  let R : ℝ := 6371.0
  let a := Real.sin ((radians phi2 - radians phi1) / 2) ^ 2 +
    Real.cos (radians phi1) * Real.cos (radians phi2) *
      Real.sin ((radians lam2 - radians lam1) / 2) ^ 2
  let c := 2 * atan2 (Real.sqrt a) (Real.sqrt (1 - a))
  round2 (R * c)

/-- `calculate_journey_distance` from `app/utils/gps_utils.py`: `Except`
models the `ValueError` raises; the missing-coordinate check precedes the
range checks, which check latitudes before longitudes. -/
def calculate_journey_distance (start_lat start_lon end_lat end_lon : Option ℝ) :
    Except String (Option ℝ) :=
  match start_lat, start_lon, end_lat, end_lon with
  | some la1, some lo1, some la2, some lo2 =>
    if ¬(-90 ≤ la1 ∧ la1 ≤ 90) ∨ ¬(-90 ≤ la2 ∧ la2 ≤ 90) then
      .error "Latitude must be between -90 and 90 degrees"
    else if ¬(-180 ≤ lo1 ∧ lo1 ≤ 180) ∨ ¬(-180 ≤ lo2 ∧ lo2 ≤ 180) then
      .error "Longitude must be between -180 and 180 degrees"
    else
      .ok (some (haversine_distance la1 lo1 la2 lo2))
  | _, _, _, _ => .ok none

/-- `KMLogStatus` (`app/models/daily_km_log.py`). -/
inductive KMLogStatus where
  | pending | in_progress | completed
deriving DecidableEq, Repr

/-- A `daily_km_logs` row as `calculate_total_km_gps` sees it; `rest` bundles
the untouched columns (`driver_id`, photos, timestamps, …). -/
structure DailyKMLog where
  start_latitude : Option ℝ
  start_longitude : Option ℝ
  end_latitude : Option ℝ
  end_longitude : Option ℝ
  total_km : Option ℝ
  status : KMLogStatus
  rest : Nat

/-- `DailyKMLog.calculate_total_km_gps`: returns the pair of the (possibly
updated) row and the returned float.  The `try/except` makes the method
total: a raised `ValueError` is caught and `0.0` returned with the row
unmodified. -/
def calculate_total_km_gps (log : DailyKMLog) : DailyKMLog × ℝ :=
  match calculate_journey_distance log.start_latitude log.start_longitude
      log.end_latitude log.end_longitude with
  | .ok (some distance) =>
    if 0 ≤ distance then
      ({ log with total_km := some distance, status := .completed }, distance)
    else (log, 0)
  | .ok none => (log, 0)
  | .error _ => (log, 0)

/-- C8: `haversine_distance` computes exactly the textbook haversine formula
with `R = 6371` km, rounded to two decimal places, for every pair of
coordinates — so on known coordinate pairs it matches the expected kilometre
value up to that rounding. -/
theorem haversine_matches_textbook (lat1 lon1 lat2 lon2 : ℝ) :
    haversine_distance lat1 lon1 lat2 lon2 = textbookHaversine lat1 lon1 lat2 lon2 := rfl

/-- C10: `calculate_journey_distance` returns `None` exactly when a
coordinate is missing, raises `ValueError` exactly when all four are present
and a latitude or longitude is out of range, and `calculate_total_km_gps`
never raises: on `None` and on the caught exception it returns `0.0` with
`total_km` and `status` unmodified, and only for a computed non-negative
distance does it set `total_km` and `status = COMPLETED` and return the
distance. -/
theorem journey_distance_and_km_log_errors :
    (∀ a b c d : Option ℝ, calculate_journey_distance a b c d = .ok none ↔
      (a = none ∨ b = none ∨ c = none ∨ d = none)) ∧
    (∀ a b c d : Option ℝ,
      (∃ msg, calculate_journey_distance a b c d = .error msg) ↔
      (∃ la1 lo1 la2 lo2, a = some la1 ∧ b = some lo1 ∧ c = some la2 ∧ d = some lo2 ∧
        (¬(-90 ≤ la1 ∧ la1 ≤ 90) ∨ ¬(-90 ≤ la2 ∧ la2 ≤ 90) ∨
         ¬(-180 ≤ lo1 ∧ lo1 ≤ 180) ∨ ¬(-180 ≤ lo2 ∧ lo2 ≤ 180)))) ∧
    (∀ log : DailyKMLog,
      (∀ msg, calculate_journey_distance log.start_latitude log.start_longitude
          log.end_latitude log.end_longitude = .error msg →
        calculate_total_km_gps log = (log, 0)) ∧
      (calculate_journey_distance log.start_latitude log.start_longitude
          log.end_latitude log.end_longitude = .ok none →
        calculate_total_km_gps log = (log, 0)) ∧
      (∀ d, calculate_journey_distance log.start_latitude log.start_longitude
          log.end_latitude log.end_longitude = .ok (some d) →
        (0 ≤ d → calculate_total_km_gps log =
          ({ log with total_km := some d, status := .completed }, d)) ∧
        (¬ 0 ≤ d → calculate_total_km_gps log = (log, 0)))) := by
  refine ⟨?_, ?_, ?_⟩
  · intro a b c d
    rcases a with _ | la1 <;> rcases b with _ | lo1 <;> rcases c with _ | la2 <;>
      rcases d with _ | lo2 <;>
      simp only [calculate_journey_distance] <;> try simp
    split_ifs <;> simp
  · intro a b c d
    rcases a with _ | la1 <;> rcases b with _ | lo1 <;> rcases c with _ | la2 <;>
      rcases d with _ | lo2 <;>
      simp only [calculate_journey_distance] <;> try simp
    split_ifs with h1 h2 <;> simp <;> (try push_neg at h1 h2) <;> tauto
  · intro log
    refine ⟨?_, ?_, ?_⟩
    · intro msg hmsg
      unfold calculate_total_km_gps
      rw [hmsg]
    · intro hok
      unfold calculate_total_km_gps
      rw [hok]
    · intro d hok
      constructor
      · intro hd
        unfold calculate_total_km_gps
        rw [hok]
        dsimp only
        rw [if_pos hd]
      · intro hd
        unfold calculate_total_km_gps
        rw [hok]
        dsimp only
        rw [if_neg hd]

/-- Witness for C10 at a concrete row: with all coordinates missing the
method returns `0.0` and leaves the row unchanged. -/
theorem journey_distance_and_km_log_errors_witness :
    calculate_total_km_gps ⟨none, none, none, none, none, .pending, 0⟩ =
      (⟨none, none, none, none, none, .pending, 0⟩, 0) :=
  ((journey_distance_and_km_log_errors.2.2
      ⟨none, none, none, none, none, .pending, 0⟩).2.1) rfl

end

end Report360
